import Mathlib

/-!
Shallow embedding of the Algerian Medical Passport smart contracts
(`IdentityManagement.sol`, `PrescriptionManagement.sol` — which also contains
the `ConsentManagement` contract — and the `MedicalRecords` contract) in Lean 4,
together with theorems settling the specification claims about them.

Modelling conventions:
* Ethereum addresses are `Nat` (0 plays the role of `address(0)`), `bytes32`
  consent ids are `Nat` (0 plays the role of `bytes32(0)`), timestamps are `Nat`.
* Solidity mappings are total functions with the all-zero struct as default,
  exactly as the EVM storage model provides.
* Each external function becomes a Lean function taking the transaction
  environment (`Env`), the referenced `IdentityManagement` state where the
  contract holds one, and the contract state; `require` failures become
  `Except.error msg` with the source's revert string, so an error leaves the
  state unchanged by construction (EVM revert semantics).
* `keccak256`-derived consent ids are modelled as a caller-supplied fresh
  nonzero id in the transition relation, reflecting the standard assumption
  that the hash of distinct `(patient, grantee, scope, timestamp, block)`
  tuples never collides and never hits 0.
* Event emission has no effect on storage and is omitted.
-/

namespace AMP

/-- Ethereum addresses, modelled as naturals; `0` is `address(0)`. -/
abbrev Addr := Nat

/-- The transaction environment: `msg.sender`, `block.timestamp`, `block.number`. -/
structure Env where
  sender : Addr
  timestamp : Nat
  blockNumber : Nat
deriving DecidableEq

/-- Pointwise update of a Solidity mapping. -/
def upd {κ : Type} [DecidableEq κ] {α : Type} (f : κ → α) (k : κ) (v : α) : κ → α :=
  fun x => if x = k then v else f x

theorem upd_same {κ : Type} [DecidableEq κ] {α : Type} (f : κ → α) (k : κ) (v : α) :
    upd f k v k = v := by simp [upd]

theorem upd_other {κ : Type} [DecidableEq κ] {α : Type} (f : κ → α) (k : κ) (v : α)
    (x : κ) (h : x ≠ k) : upd f k v x = f x := by simp [upd, h]

/-! ## IdentityManagement -/

/-- `IdentityManagement.IdentityStatus`. -/
inductive IdentityStatus
  | Pending
  | Active
  | Suspended
  | Revoked
deriving DecidableEq

/-- `IdentityManagement.EntityType`. -/
inductive EntityType
  | Government
  | Hospital
  | Clinic
  | Pharmacy
  | Doctor
  | Patient
deriving DecidableEq

/-- The AccessControl role constants used across the contracts
(`keccak256("DOCTOR_ROLE")` etc. are distinct, so an enumeration is faithful). -/
inductive Role
  | DEFAULT_ADMIN
  | GOVERNMENT
  | HOSPITAL
  | CLINIC
  | PHARMACY
  | DOCTOR
  | PATIENT
deriving DecidableEq

/-- An OpenZeppelin AccessControl role store: `hasRole role addr`. -/
abbrev RoleStore := Role → Addr → Bool

/-- `_grantRole` on a role store. -/
def grantRoleMap (roles : RoleStore) (r : Role) (a : Addr) : RoleStore :=
  fun r' a' => if r' = r ∧ a' = a then true else roles r' a'

/-- `IdentityManagement.ProfilePicture`. -/
structure ProfilePicture where
  uri : String
  sha256 : String
  encryption : String
deriving DecidableEq

/-- `IdentityManagement.PatientPassport`. -/
structure PatientPassport where
  patientId : String
  firstName : String
  lastName : String
  firstNameAr : String
  lastNameAr : String
  birthDate : String
  bloodType : String
  profilePic : ProfilePicture
  status : IdentityStatus
  createdAt : Nat
  createdBy : Addr
deriving DecidableEq

/-- The all-zero `PatientPassport` (Solidity storage default). -/
def PatientPassport.empty : PatientPassport :=
  { patientId := "", firstName := "", lastName := "", firstNameAr := "", lastNameAr := ""
    birthDate := "", bloodType := ""
    profilePic := { uri := "", sha256 := "", encryption := "" }
    status := .Pending, createdAt := 0, createdBy := 0 }

/-- `IdentityManagement.MedicalIdentity`. -/
structure MedicalIdentity where
  medicalId : Nat
  walletAddress : Addr
  entityType : EntityType
  status : IdentityStatus
  encryptedPersonalData : String
  publicKey : String
  registrationDate : Nat
  lastUpdateDate : Nat
  registeredBy : Addr
  patientPassport : PatientPassport
deriving DecidableEq

/-- The all-zero `MedicalIdentity` (Solidity storage default: enum value 0,
empty strings, zero numbers). -/
def MedicalIdentity.empty : MedicalIdentity :=
  { medicalId := 0, walletAddress := 0, entityType := .Government, status := .Pending
    encryptedPersonalData := "", publicKey := "", registrationDate := 0, lastUpdateDate := 0
    registeredBy := 0, patientPassport := PatientPassport.empty }

/-- `IdentityManagement.ProviderCredentials`. -/
structure ProviderCredentials where
  licenseNumber : String
  specialization : String
  facilityId : String
  licenseExpiryDate : Nat
  isVerified : Bool
  verifiedBy : Addr
  additionalCertifications : String
deriving DecidableEq

def ProviderCredentials.empty : ProviderCredentials :=
  { licenseNumber := "", specialization := "", facilityId := "", licenseExpiryDate := 0
    isVerified := false, verifiedBy := 0, additionalCertifications := "" }

/-- Storage of the `IdentityManagement` contract. -/
structure IdState where
  roles : RoleStore
  medicalIdCounter : Nat
  medicalIdentities : Nat → MedicalIdentity
  addressToMedicalId : Addr → Nat
  providerCredentials : Nat → ProviderCredentials
  authorizedGovernmentAddresses : Addr → Bool
  patientIdToMedicalId : String → Nat
  usedPatientIds : String → Bool

/-- `getMedicalIdByAddress`. -/
def IdState.getMedicalIdByAddress (s : IdState) (a : Addr) : Nat :=
  s.addressToMedicalId a

/-- `verifyIdentity`: reverts outside the id range, otherwise reports whether the
identity is `Active`, its entity type, and its wallet. -/
def verifyIdentity (s : IdState) (mid : Nat) :
    Except String (Bool × EntityType × Addr) :=
  if 0 < mid ∧ mid ≤ s.medicalIdCounter then
    let idn := s.medicalIdentities mid
    .ok (idn.status = IdentityStatus.Active, idn.entityType, idn.walletAddress)
  else .error "Invalid medical ID"

/-- The combined effect of the `validMedicalId` modifiers used by the other
contracts: `verifyIdentity` succeeds and reports `isValid = true`.  Both the
out-of-range revert inside `verifyIdentity` and the callers' own
`require(isValid, "Invalid medical ID")` carry the same revert string, so the
single check is faithful. -/
def isValidMedicalId (s : IdState) (mid : Nat) : Bool :=
  decide (0 < mid ∧ mid ≤ s.medicalIdCounter) &&
    decide ((s.medicalIdentities mid).status = IdentityStatus.Active)

/-- The role `registerMedicalID` grants for each entity type. -/
def roleOfEntity : EntityType → Role
  | .Government => .GOVERNMENT
  | .Hospital => .HOSPITAL
  | .Clinic => .CLINIC
  | .Pharmacy => .PHARMACY
  | .Doctor => .DOCTOR
  | .Patient => .PATIENT

/-- `IdentityManagement.registerMedicalID`.  Note that the role is granted in
this contract's own role store; the function has no access to any other
contract's storage. -/
def registerMedicalID (env : Env) (s : IdState) (wallet : Addr) (et : EntityType)
    (encryptedPersonalData publicKey : String) : Except String (IdState × Nat) :=
  if s.roles Role.GOVERNMENT env.sender = true then
    if wallet ≠ 0 then
      if s.addressToMedicalId wallet = 0 then
        if encryptedPersonalData ≠ "" then
          if publicKey ≠ "" then
            let newId := s.medicalIdCounter + 1
            let idn : MedicalIdentity :=
              { medicalId := newId, walletAddress := wallet, entityType := et
                status := .Active, encryptedPersonalData := encryptedPersonalData
                publicKey := publicKey, registrationDate := env.timestamp
                lastUpdateDate := env.timestamp, registeredBy := env.sender
                patientPassport := PatientPassport.empty }
            .ok ({ s with
                    medicalIdCounter := newId
                    medicalIdentities := upd s.medicalIdentities newId idn
                    addressToMedicalId := upd s.addressToMedicalId wallet newId
                    roles := grantRoleMap s.roles (roleOfEntity et) wallet
                    authorizedGovernmentAddresses :=
                      if et = EntityType.Government then
                        upd s.authorizedGovernmentAddresses wallet true
                      else s.authorizedGovernmentAddresses }, newId)
          else .error "Public key required"
        else .error "Personal data hash required"
      else .error "Address already registered"
    else .error "Invalid wallet address"
  else .error "Caller is not government"

/-- `_isValidBloodType` (keccak equality on strings is string equality under the
collision-freeness assumption). -/
def isValidBloodType (bt : String) : Bool :=
  bt = "O+" || bt = "O-" || bt = "A+" || bt = "A-" ||
  bt = "B+" || bt = "B-" || bt = "AB+" || bt = "AB-"

/-- The storage effect of a successful `registerPatientPassport`. -/
def registerPatientPassportEffect (env : Env) (s : IdState) (wallet : Addr)
    (patientId firstName lastName firstNameAr lastNameAr birthDate bloodType
     profilePicUri profilePicSha256 profilePicEncryption publicKey : String) : IdState :=
  let newId := s.medicalIdCounter + 1
  let passport : PatientPassport :=
    { patientId := patientId, firstName := firstName, lastName := lastName
      firstNameAr := firstNameAr, lastNameAr := lastNameAr
      birthDate := birthDate, bloodType := bloodType
      profilePic := { uri := profilePicUri, sha256 := profilePicSha256
                      encryption := profilePicEncryption }
      status := .Active, createdAt := env.timestamp, createdBy := env.sender }
  let idn : MedicalIdentity :=
    { medicalId := newId, walletAddress := wallet
      entityType := .Patient, status := .Active
      encryptedPersonalData := "", publicKey := publicKey
      registrationDate := env.timestamp, lastUpdateDate := env.timestamp
      registeredBy := env.sender, patientPassport := passport }
  { s with
     medicalIdCounter := newId
     medicalIdentities := upd s.medicalIdentities newId idn
     addressToMedicalId := upd s.addressToMedicalId wallet newId
     patientIdToMedicalId := upd s.patientIdToMedicalId patientId newId
     usedPatientIds := upd s.usedPatientIds patientId true
     roles := grantRoleMap s.roles Role.PATIENT wallet }

/-- The `require` sequence of `registerPatientPassport`, in source order:
the first failing check's revert string, or `none` when all checks pass. -/
def registerPatientPassportError (env : Env) (s : IdState) (wallet : Addr)
    (patientId firstName lastName firstNameAr lastNameAr birthDate bloodType
     publicKey : String) : Option String :=
  if s.roles Role.GOVERNMENT env.sender ≠ true then some "Caller is not government"
  else if wallet = 0 then some "Invalid wallet address"
  else if s.addressToMedicalId wallet ≠ 0 then some "Address already registered"
  else if patientId = "" then some "Patient ID required"
  else if s.usedPatientIds patientId = true then some "Patient ID already used"
  else if firstName = "" then some "First name required"
  else if lastName = "" then some "Last name required"
  else if firstNameAr = "" then some "Arabic first name required"
  else if lastNameAr = "" then some "Arabic last name required"
  else if birthDate = "" then some "Birth date required"
  else if isValidBloodType bloodType ≠ true then some "Invalid blood type"
  else if publicKey = "" then some "Public key required"
  else none

/-- `IdentityManagement.registerPatientPassport`. -/
def registerPatientPassport (env : Env) (s : IdState) (wallet : Addr)
    (patientId firstName lastName firstNameAr lastNameAr birthDate bloodType
     profilePicUri profilePicSha256 profilePicEncryption publicKey : String) :
    Except String (IdState × Nat) :=
  match registerPatientPassportError env s wallet patientId firstName lastName
          firstNameAr lastNameAr birthDate bloodType publicKey with
  | some msg => .error msg
  | none =>
    .ok (registerPatientPassportEffect env s wallet patientId firstName lastName
           firstNameAr lastNameAr birthDate bloodType profilePicUri
           profilePicSha256 profilePicEncryption publicKey,
         s.medicalIdCounter + 1)

/-- Pointwise update of a nested (two-key) Solidity mapping. -/
def upd2 {κ₁ κ₂ : Type} [DecidableEq κ₁] [DecidableEq κ₂] {α : Type}
    (f : κ₁ → κ₂ → α) (k₁ : κ₁) (k₂ : κ₂) (v : α) : κ₁ → κ₂ → α :=
  fun x y => if x = k₁ ∧ y = k₂ then v else f x y

/-! ## PrescriptionManagement -/

/-- `PrescriptionManagement.PrescriptionStatus`. -/
inductive PrescriptionStatus
  | Active
  | PartiallyDispensed
  | Dispensed
  | Expired
  | Cancelled
deriving DecidableEq

/-- `PrescriptionManagement.Urgency`. -/
inductive Urgency
  | Normal
  | Urgent
  | Critical
deriving DecidableEq

/-- `PrescriptionManagement.Medication`. -/
structure Medication where
  name : String
  dosage : String
  frequency : String
  quantity : Nat
  quantityDispensed : Nat
  instructions : String
  genericAlternatives : String
deriving DecidableEq

/-- `PrescriptionManagement.Prescription`. -/
structure Prescription where
  prescriptionId : Nat
  patientMedicalId : Nat
  doctorMedicalId : Nat
  status : PrescriptionStatus
  urgency : Urgency
  medications : List Medication
  diagnosis : String
  additionalInstructions : String
  issuedDate : Nat
  expiryDate : Nat
  lastDispensedDate : Nat
  issuedBy : Addr
  allowGenericSubstitution : Bool
  maxRefills : Nat
  refillsUsed : Nat
deriving DecidableEq

/-- The all-zero `Prescription` (Solidity storage default). -/
def Prescription.empty : Prescription :=
  { prescriptionId := 0, patientMedicalId := 0, doctorMedicalId := 0
    status := .Active, urgency := .Normal, medications := []
    diagnosis := "", additionalInstructions := "", issuedDate := 0, expiryDate := 0
    lastDispensedDate := 0, issuedBy := 0, allowGenericSubstitution := false
    maxRefills := 0, refillsUsed := 0 }

/-- `PrescriptionManagement.DispensingRecord`. -/
structure DispensingRecord where
  prescriptionId : Nat
  pharmacyMedicalId : Nat
  medicationIndex : Nat
  quantityDispensed : Nat
  actualMedication : String
  dispensedDate : Nat
  dispensedBy : Addr
  pharmacistNotes : String
deriving DecidableEq

/-- Storage of the `PrescriptionManagement` contract.  Its reference to the
`IdentityManagement` contract is read-only, so identity state is passed to the
operations as a separate argument rather than stored here. -/
structure PMState where
  roles : RoleStore
  prescriptionIdCounter : Nat
  prescriptions : Nat → Prescription
  patientPrescriptions : Nat → List Nat
  doctorPrescriptions : Nat → List Nat
  dispensingHistory : Nat → List DispensingRecord
  pharmacyAccess : Nat → Nat → Bool

/-- First failing `require` message of the medication-validation loop in
`issuePrescription`, or `none` when every medication passes. -/
def medsError : List Medication → Option String
  | [] => none
  | m :: rest =>
    if m.name = "" then some "Medication name required"
    else if m.dosage = "" then some "Dosage required"
    else if m.frequency = "" then some "Frequency required"
    else if m.quantity = 0 then some "Quantity must be greater than zero"
    else medsError rest

/-- `PrescriptionManagement.issuePrescription`.  Note line 236 of the source:
the caller-supplied `Medication` structs — including their `quantityDispensed`
fields — are pushed into storage verbatim. -/
def issuePrescription (env : Env) (ids : IdState) (s : PMState)
    (patientMedicalId : Nat) (medications : List Medication)
    (diagnosis additionalInstructions : String) (expiryDate : Nat) (urgency : Urgency)
    (allowGenericSubstitution : Bool) (maxRefills : Nat) :
    Except String (PMState × Nat) :=
  if s.roles Role.DOCTOR env.sender = true then
   if isValidMedicalId ids patientMedicalId = true then
    let doctorMedicalId := ids.addressToMedicalId env.sender
    if doctorMedicalId ≠ 0 then
     if medications.length > 0 then
      if expiryDate > env.timestamp then
       if diagnosis ≠ "" then
        match medsError medications with
        | some msg => .error msg
        | none =>
          let newPrescriptionId := s.prescriptionIdCounter + 1
          let p : Prescription :=
            { prescriptionId := newPrescriptionId, patientMedicalId := patientMedicalId
              doctorMedicalId := doctorMedicalId, status := .Active, urgency := urgency
              medications := medications, diagnosis := diagnosis
              additionalInstructions := additionalInstructions
              issuedDate := env.timestamp, expiryDate := expiryDate
              lastDispensedDate := 0, issuedBy := env.sender
              allowGenericSubstitution := allowGenericSubstitution
              maxRefills := maxRefills, refillsUsed := 0 }
          .ok ({ s with
                  prescriptionIdCounter := newPrescriptionId
                  prescriptions := upd s.prescriptions newPrescriptionId p
                  patientPrescriptions := upd s.patientPrescriptions patientMedicalId
                    (s.patientPrescriptions patientMedicalId ++ [newPrescriptionId])
                  doctorPrescriptions := upd s.doctorPrescriptions doctorMedicalId
                    (s.doctorPrescriptions doctorMedicalId ++ [newPrescriptionId]) },
                newPrescriptionId)
       else .error "Diagnosis required"
      else .error "Expiry date must be in the future"
     else .error "At least one medication required"
    else .error "Doctor not registered"
   else .error "Invalid medical ID"
  else .error "Caller is not a registered doctor"

/-- The net storage effect of `_updatePrescriptionStatus` on the prescription:
if the expiry date has passed the status becomes `Expired`; otherwise the status
becomes `Dispensed` when no line has a dispensed quantity below its prescribed
quantity, `PartiallyDispensed` when some line has a positive dispensed quantity,
and `Active` otherwise.  (The source skips the storage write when the status is
unchanged, which only suppresses an event; the resulting storage is the same.) -/
def updatePrescriptionStatusPure (now : Nat) (p : Prescription) : Prescription :=
  if p.expiryDate ≤ now then
    { p with status := .Expired }
  else
    let fullyDispensed := p.medications.all (fun m => decide (m.quantity ≤ m.quantityDispensed))
    let partiallyDispensed := p.medications.any (fun m => decide (0 < m.quantityDispensed))
    let newStatus := if fullyDispensed then PrescriptionStatus.Dispensed
                     else if partiallyDispensed then PrescriptionStatus.PartiallyDispensed
                     else PrescriptionStatus.Active
    { p with status := newStatus }

/-- `PrescriptionManagement.dispenseMedication`, modifiers applied in source
order (`onlyRegisteredPharmacy`, `validPrescriptionId`, `prescriptionNotExpired`,
`prescriptionActive`), then the body's own checks. -/
def dispenseMedication (env : Env) (ids : IdState) (s : PMState)
    (pid midx q : Nat) (actualMedication pharmacistNotes : String) :
    Except String PMState :=
  if s.roles Role.PHARMACY env.sender = true then
   if 0 < pid ∧ pid ≤ s.prescriptionIdCounter then
    if (s.prescriptions pid).expiryDate > env.timestamp then
     if (s.prescriptions pid).status = PrescriptionStatus.Active ∨
        (s.prescriptions pid).status = PrescriptionStatus.PartiallyDispensed then
      let pharmacyMedicalId := ids.addressToMedicalId env.sender
      if pharmacyMedicalId ≠ 0 then
       let p := s.prescriptions pid
       if h : midx < p.medications.length then
        let m := p.medications.get ⟨midx, h⟩
        if 0 < q then
         if m.quantityDispensed + q ≤ m.quantity then
          let m' : Medication := { m with quantityDispensed := m.quantityDispensed + q }
          let p' : Prescription :=
            { p with medications := p.medications.set midx m'
                     lastDispensedDate := env.timestamp }
          let dr : DispensingRecord :=
            { prescriptionId := pid, pharmacyMedicalId := pharmacyMedicalId
              medicationIndex := midx, quantityDispensed := q
              actualMedication := actualMedication, dispensedDate := env.timestamp
              dispensedBy := env.sender, pharmacistNotes := pharmacistNotes }
          .ok { s with
                 prescriptions := upd s.prescriptions pid
                   (updatePrescriptionStatusPure env.timestamp p')
                 dispensingHistory := upd s.dispensingHistory pid
                   (s.dispensingHistory pid ++ [dr]) }
         else .error "Cannot dispense more than prescribed"
        else .error "Quantity must be greater than zero"
       else .error "Invalid medication index"
      else .error "Pharmacy not registered"
     else .error "Prescription is not active"
    else .error "Prescription has expired"
   else .error "Invalid prescription ID"
  else .error "Caller is not a registered pharmacy"

/-- `PrescriptionManagement.cancelPrescription`.  The only status precondition
in the source is `status != Cancelled`. -/
def cancelPrescription (env : Env) (ids : IdState) (s : PMState)
    (pid : Nat) (reason : String) : Except String PMState :=
  if s.roles Role.DOCTOR env.sender = true then
   if 0 < pid ∧ pid ≤ s.prescriptionIdCounter then
    let p := s.prescriptions pid
    let doctorMedicalId := ids.addressToMedicalId env.sender
    if p.doctorMedicalId = doctorMedicalId then
     if p.status ≠ PrescriptionStatus.Cancelled then
      if reason ≠ "" then
       let p' : Prescription := { p with status := PrescriptionStatus.Cancelled }
       .ok { s with prescriptions := upd s.prescriptions pid p' }
      else .error "Cancellation reason required"
     else .error "Prescription already cancelled"
    else .error "Only issuing doctor can cancel"
   else .error "Invalid prescription ID"
  else .error "Caller is not a registered doctor"

/-- `PrescriptionManagement.grantPharmacyAccess`. -/
def grantPharmacyAccess (env : Env) (ids : IdState) (s : PMState)
    (pid pharmacyMedicalId : Nat) : Except String PMState :=
  if 0 < pid ∧ pid ≤ s.prescriptionIdCounter then
   if isValidMedicalId ids pharmacyMedicalId = true then
    let p := s.prescriptions pid
    let callerMedicalId := ids.addressToMedicalId env.sender
    if callerMedicalId = p.patientMedicalId ∨ callerMedicalId = p.doctorMedicalId then
     if (ids.medicalIdentities pharmacyMedicalId).entityType = EntityType.Pharmacy then
      .ok { s with pharmacyAccess := upd2 s.pharmacyAccess pid pharmacyMedicalId true }
     else .error "Target is not a pharmacy"
    else .error "Only patient or doctor can grant pharmacy access"
   else .error "Invalid medical ID"
  else .error "Invalid prescription ID"

/-- The status derivation exactly as §4.4 of the specification words it
(modelled from the spec, for comparison with `updatePrescriptionStatusPure`):
Expired if `now ≥ expiry`; else Dispensed if every line's dispensed quantity
**equals** its prescribed quantity; else PartiallyDispensed if some line has
dispensed > 0; else Active. -/
def specDerivedStatus (now : Nat) (p : Prescription) : PrescriptionStatus :=
  if p.expiryDate ≤ now then .Expired
  else if p.medications.all (fun m => decide (m.quantityDispensed = m.quantity)) then .Dispensed
  else if p.medications.any (fun m => decide (0 < m.quantityDispensed)) then .PartiallyDispensed
  else .Active

/-! ## ConsentManagement -/

/-- `ConsentManagement.DataScope`. -/
inductive DataScope
  | PatientCore
  | ClinicalNotes
  | Prescriptions
  | FullAccess
deriving DecidableEq

/-- `ConsentManagement.ConsentStatus`. -/
inductive ConsentStatus
  | Active
  | Revoked
  | Expired
deriving DecidableEq

/-- `ConsentManagement.ConsentRecord`. -/
structure ConsentRecord where
  patientMedicalId : Nat
  granteeMedicalId : Nat
  scope : DataScope
  status : ConsentStatus
  validFrom : Nat
  validTo : Nat
  grantedBy : Addr
  revokedBy : Addr
  purpose : String
  emergencyOverride : Bool
  createdAt : Nat
  updatedAt : Nat
deriving DecidableEq

/-- The all-zero `ConsentRecord` (Solidity storage default; note that the
default `status` is enum value 0, i.e. `Active`, while `patientMedicalId = 0`
is what `validConsentId` uses to recognise a nonexistent consent). -/
def ConsentRecord.empty : ConsentRecord :=
  { patientMedicalId := 0, granteeMedicalId := 0, scope := .PatientCore
    status := .Active, validFrom := 0, validTo := 0, grantedBy := 0, revokedBy := 0
    purpose := "", emergencyOverride := false, createdAt := 0, updatedAt := 0 }

/-- `ConsentManagement.EmergencyAccess`. -/
structure EmergencyAccessSetting where
  enabled : Bool
  enabledAt : Nat
  enabledBy : Addr
  conditions : String
deriving DecidableEq

def EmergencyAccessSetting.empty : EmergencyAccessSetting :=
  { enabled := false, enabledAt := 0, enabledBy := 0, conditions := "" }

/-- Pointwise update of the three-key `activeConsents` mapping. -/
def upd3 (f : Nat → Nat → DataScope → Nat) (p g : Nat) (sc : DataScope) (v : Nat) :
    Nat → Nat → DataScope → Nat :=
  fun p' g' sc' => if p' = p ∧ g' = g ∧ sc' = sc then v else f p' g' sc'

theorem upd3_same (f : Nat → Nat → DataScope → Nat) (p g : Nat) (sc : DataScope) (v : Nat) :
    upd3 f p g sc v p g sc = v := by simp [upd3]

theorem upd3_other (f : Nat → Nat → DataScope → Nat) (p g : Nat) (sc : DataScope) (v : Nat)
    (p' g' : Nat) (sc' : DataScope) (h : ¬(p' = p ∧ g' = g ∧ sc' = sc)) :
    upd3 f p g sc v p' g' sc' = f p' g' sc' := by simp [upd3, h]

/-- Storage of the `ConsentManagement` contract.  Consent ids (`bytes32`) are
naturals with `0` standing for `bytes32(0)`. -/
structure CMState where
  consents : Nat → ConsentRecord
  patientConsents : Nat → List Nat
  granteeConsents : Nat → List Nat
  emergencyAccessSettings : Nat → EmergencyAccessSetting
  activeConsents : Nat → Nat → DataScope → Nat

/-- The storage of a freshly deployed `ConsentManagement` contract. -/
def CMState.init : CMState :=
  { consents := fun _ => ConsentRecord.empty
    patientConsents := fun _ => []
    granteeConsents := fun _ => []
    emergencyAccessSettings := fun _ => EmergencyAccessSetting.empty
    activeConsents := fun _ _ _ => 0 }

/-- `ConsentManagement._revokeConsent`: marks the consent Revoked, records the
revoker and update time, and clears the `activeConsents` index entry for the
consent's own (patient, grantee, scope) tuple. -/
def revokeConsentInternal (env : Env) (s : CMState) (cid : Nat) : CMState :=
  let c := s.consents cid
  let c' : ConsentRecord :=
    { c with status := .Revoked, revokedBy := env.sender, updatedAt := env.timestamp }
  { s with
     consents := upd s.consents cid c'
     activeConsents := upd3 s.activeConsents c.patientMedicalId c.granteeMedicalId c.scope 0 }

/-- The storage effect of a successful `grantConsent`: revoke the existing
active consent for the tuple (if the index holds one), then write the new
record and point the index at it. -/
def grantConsentEffect (env : Env) (s : CMState) (newId patientMedicalId granteeMedicalId : Nat)
    (scope : DataScope) (validTo : Nat) (purpose : String) (emergencyOverride : Bool) :
    CMState :=
  let existingConsentId := s.activeConsents patientMedicalId granteeMedicalId scope
  let s1 := if existingConsentId ≠ 0 then revokeConsentInternal env s existingConsentId else s
  let c : ConsentRecord :=
    { patientMedicalId := patientMedicalId, granteeMedicalId := granteeMedicalId
      scope := scope, status := .Active, validFrom := env.timestamp, validTo := validTo
      grantedBy := env.sender, revokedBy := 0, purpose := purpose
      emergencyOverride := emergencyOverride, createdAt := env.timestamp
      updatedAt := env.timestamp }
  { s1 with
     consents := upd s1.consents newId c
     patientConsents := upd s1.patientConsents patientMedicalId
       (s1.patientConsents patientMedicalId ++ [newId])
     granteeConsents := upd s1.granteeConsents granteeMedicalId
       (s1.granteeConsents granteeMedicalId ++ [newId])
     activeConsents := upd3 s1.activeConsents patientMedicalId granteeMedicalId scope newId }

/-- `ConsentManagement.grantConsent`.  `newId` stands for the
`keccak256(patient, grantee, scope, timestamp, blockNumber)` consent id
computed by the source; the transition relation below constrains it to be fresh
and nonzero, which is what the hash construction provides. -/
def grantConsent (env : Env) (ids : IdState) (s : CMState) (newId : Nat)
    (granteeMedicalId : Nat) (scope : DataScope) (validTo : Nat)
    (purpose : String) (emergencyOverride : Bool) :
    Except String (CMState × Nat) :=
  if ids.roles Role.PATIENT env.sender = true then
   if isValidMedicalId ids granteeMedicalId = true then
    let patientMedicalId := ids.addressToMedicalId env.sender
    if patientMedicalId ≠ 0 then
     if patientMedicalId ≠ granteeMedicalId then
      let et := (ids.medicalIdentities granteeMedicalId).entityType
      if et = EntityType.Doctor ∨ et = EntityType.Hospital ∨
         et = EntityType.Clinic ∨ et = EntityType.Pharmacy then
       if validTo = 0 ∨ validTo > env.timestamp then
        if purpose ≠ "" then
         .ok (grantConsentEffect env s newId patientMedicalId granteeMedicalId scope
                validTo purpose emergencyOverride, newId)
        else .error "Purpose required"
       else .error "Expiry date must be in the future"
      else .error "Grantee must be a healthcare provider"
     else .error "Cannot grant consent to self"
    else .error "Patient not registered"
   else .error "Invalid medical ID"
  else .error "Caller is not a patient"

/-- `ConsentManagement.revokeConsent` (the external entry point). -/
def revokeConsent (env : Env) (ids : IdState) (s : CMState) (cid : Nat)
    (reason : String) : Except String CMState :=
  if (s.consents cid).patientMedicalId ≠ 0 then
   let patientMedicalId := ids.addressToMedicalId env.sender
   if (s.consents cid).patientMedicalId = patientMedicalId ∨
      ids.roles Role.GOVERNMENT env.sender = true then
    if (s.consents cid).status = ConsentStatus.Active then
     if reason ≠ "" then
      .ok (revokeConsentInternal env s cid)
     else .error "Revocation reason required"
    else .error "Consent is not active"
   else .error "Only patient or government can revoke consent"
  else .error "Invalid consent ID"

/-- The consent id `checkConsent` resolves: the exact-scope `activeConsents`
slot when it is nonzero, otherwise the `FullAccess` slot (so the FullAccess
fallback is consulted only when the exact-scope slot is zero). -/
def resolvedCid (s : CMState) (patientMedicalId granteeMedicalId : Nat)
    (scope : DataScope) : Nat :=
  if s.activeConsents patientMedicalId granteeMedicalId scope = 0 then
    s.activeConsents patientMedicalId granteeMedicalId DataScope.FullAccess
  else s.activeConsents patientMedicalId granteeMedicalId scope

/-- The `(hasAccess, consentId, expiryDate)` triple `checkConsent` computes,
mirroring the source body: validity compares the record's `validTo` against the
current time and its stored status, and the emergency branch reads the record
at the resolved id (the zero record when no consent resolved). -/
def checkConsentResult (now : Nat) (s : CMState)
    (patientMedicalId granteeMedicalId : Nat) (scope : DataScope) :
    Bool × Nat × Nat :=
  let cid := resolvedCid s patientMedicalId granteeMedicalId scope
  let hasAccess0 :=
    if cid ≠ 0 then
      decide ((s.consents cid).status = ConsentStatus.Active) &&
        decide ((s.consents cid).validTo = 0 ∨ (s.consents cid).validTo > now)
    else false
  let expiryDate := if cid ≠ 0 then (s.consents cid).validTo else 0
  let hasAccess :=
    if hasAccess0 = false ∧ (s.emergencyAccessSettings patientMedicalId).enabled = true then
      (s.consents cid).emergencyOverride
    else hasAccess0
  (hasAccess, cid, expiryDate)

/-- `ConsentManagement.checkConsent`.  A `view` function: it returns a value
and no successor state, so it cannot mutate storage by construction. -/
def checkConsent (env : Env) (ids : IdState) (s : CMState)
    (patientMedicalId granteeMedicalId : Nat) (scope : DataScope) :
    Except String (Bool × Nat × Nat) :=
  if isValidMedicalId ids patientMedicalId = true then
   if isValidMedicalId ids granteeMedicalId = true then
    .ok (checkConsentResult env.timestamp s patientMedicalId granteeMedicalId scope)
   else .error "Invalid medical ID"
  else .error "Invalid medical ID"

/-- `ConsentManagement.toggleEmergencyAccess`. -/
def toggleEmergencyAccess (env : Env) (ids : IdState) (s : CMState)
    (enabled : Bool) (conditions : String) : Except String CMState :=
  if ids.roles Role.PATIENT env.sender = true then
   let patientMedicalId := ids.addressToMedicalId env.sender
   if patientMedicalId ≠ 0 then
    let ea : EmergencyAccessSetting :=
      { enabled := enabled, enabledAt := env.timestamp, enabledBy := env.sender
        conditions := conditions }
    .ok { s with emergencyAccessSettings := upd s.emergencyAccessSettings patientMedicalId ea }
   else .error "Patient not registered"
  else .error "Caller is not a patient"

/-- One iteration of the `cleanupExpiredConsents` loop. -/
def cleanupOne (now : Nat) (s : CMState) (cid : Nat) : CMState :=
  let c := s.consents cid
  if c.status = ConsentStatus.Active ∧ c.validTo ≠ 0 ∧ c.validTo ≤ now then
    { s with
       consents := upd s.consents cid { c with status := .Expired, updatedAt := now }
       activeConsents := upd3 s.activeConsents c.patientMedicalId c.granteeMedicalId c.scope 0 }
  else s

/-- `ConsentManagement.cleanupExpiredConsents` (callable by anyone). -/
def cleanupExpiredConsents (env : Env) (s : CMState) (cids : List Nat) : CMState :=
  cids.foldl (cleanupOne env.timestamp) s

/-- One state transition of the `ConsentManagement` contract: any external
state-mutating entry point, invoked by any caller under any environment and any
identity-contract state.  The `grant` case constrains the keccak-derived
consent id to be fresh and nonzero. -/
inductive CMStep : CMState → CMState → Prop
  | grant (env : Env) (ids : IdState) (s s' : CMState) (newId granteeMedicalId r : Nat)
      (scope : DataScope) (validTo : Nat) (purpose : String) (emergencyOverride : Bool)
      (hfresh : (s.consents newId).patientMedicalId = 0) (hnz : newId ≠ 0)
      (hok : grantConsent env ids s newId granteeMedicalId scope validTo purpose
               emergencyOverride = .ok (s', r)) : CMStep s s'
  | revoke (env : Env) (ids : IdState) (s s' : CMState) (cid : Nat) (reason : String)
      (hok : revokeConsent env ids s cid reason = .ok s') : CMStep s s'
  | toggle (env : Env) (ids : IdState) (s s' : CMState) (enabled : Bool) (conditions : String)
      (hok : toggleEmergencyAccess env ids s enabled conditions = .ok s') : CMStep s s'
  | cleanup (env : Env) (s : CMState) (cids : List Nat) :
      CMStep s (cleanupExpiredConsents env s cids)

/-- Reachable `ConsentManagement` states: everything obtainable from a fresh
deployment by a sequence of external calls. -/
inductive CMReachable : CMState → Prop
  | init : CMReachable CMState.init
  | step {s s' : CMState} (hr : CMReachable s) (hs : CMStep s s') : CMReachable s'

/-! ## MedicalRecords -/

/-- `MedicalRecords.RecordType`. -/
inductive RecordType
  | Consultation
  | Diagnosis
  | Treatment
  | Laboratory
  | Imaging
  | Surgery
  | Prescription
  | Vaccination
  | Emergency
deriving DecidableEq

/-- `MedicalRecords.RecordStatus`. -/
inductive RecordStatus
  | Active
  | Updated
  | Deleted
deriving DecidableEq

/-- `MedicalRecords.MedicalRecord`. -/
structure MedicalRecord where
  recordId : Nat
  patientMedicalId : Nat
  doctorMedicalId : Nat
  recordType : RecordType
  status : RecordStatus
  encryptedData : String
  title : String
  summary : String
  createdDate : Nat
  lastUpdatedDate : Nat
  createdBy : Addr
  lastUpdatedBy : Addr
deriving DecidableEq

/-- The all-zero `MedicalRecord` (Solidity storage default). -/
def MedicalRecord.empty : MedicalRecord :=
  { recordId := 0, patientMedicalId := 0, doctorMedicalId := 0
    recordType := .Consultation, status := .Active, encryptedData := "", title := ""
    summary := "", createdDate := 0, lastUpdatedDate := 0, createdBy := 0
    lastUpdatedBy := 0 }

/-- `MedicalRecords.AccessPermission`. -/
structure AccessPermission where
  hasAccess : Bool
  grantedDate : Nat
  expiryDate : Nat
  grantedBy : Addr
deriving DecidableEq

def AccessPermission.empty : AccessPermission :=
  { hasAccess := false, grantedDate := 0, expiryDate := 0, grantedBy := 0 }

/-- Storage of the `MedicalRecords` contract. -/
structure MRState where
  roles : RoleStore
  recordIdCounter : Nat
  medicalRecords : Nat → MedicalRecord
  patientRecords : Nat → List Nat
  recordAccess : Nat → Nat → AccessPermission
  patientAccess : Nat → Nat → AccessPermission
  emergencyAccess : Nat → Bool

/-- `MedicalRecords._hasAccessToPatient`. -/
def hasAccessToPatient (now : Nat) (s : MRState) (patientMedicalId doctorMedicalId : Nat) :
    Bool :=
  let permission := s.patientAccess patientMedicalId doctorMedicalId
  if permission.hasAccess = false then false
  else if permission.expiryDate ≠ 0 ∧ permission.expiryDate ≤ now then false
  else true

/-- `MedicalRecords.createRecord`. -/
def createRecord (env : Env) (ids : IdState) (s : MRState)
    (patientMedicalId : Nat) (recordType : RecordType)
    (encryptedData title summary : String) : Except String (MRState × Nat) :=
  if s.roles Role.DOCTOR env.sender = true then
   if isValidMedicalId ids patientMedicalId = true then
    let doctorMedicalId := ids.addressToMedicalId env.sender
    if doctorMedicalId ≠ 0 then
     if hasAccessToPatient env.timestamp s patientMedicalId doctorMedicalId = true ∨
        s.emergencyAccess patientMedicalId = true then
      if encryptedData ≠ "" then
       if title ≠ "" then
        let newRecordId := s.recordIdCounter + 1
        let r : MedicalRecord :=
          { recordId := newRecordId, patientMedicalId := patientMedicalId
            doctorMedicalId := doctorMedicalId, recordType := recordType
            status := .Active, encryptedData := encryptedData, title := title
            summary := summary, createdDate := env.timestamp
            lastUpdatedDate := env.timestamp, createdBy := env.sender
            lastUpdatedBy := env.sender }
        .ok ({ s with
                recordIdCounter := newRecordId
                medicalRecords := upd s.medicalRecords newRecordId r
                patientRecords := upd s.patientRecords patientMedicalId
                  (s.patientRecords patientMedicalId ++ [newRecordId]) }, newRecordId)
       else .error "Title required"
      else .error "Encrypted data required"
     else .error "No access to create records for this patient"
    else .error "Doctor not registered"
   else .error "Invalid medical ID"
  else .error "Caller is not a registered doctor"

/-- `MedicalRecords.deleteRecord` (soft delete). -/
def deleteRecord (env : Env) (ids : IdState) (s : MRState) (recordId : Nat) :
    Except String MRState :=
  if s.roles Role.DOCTOR env.sender = true then
   if 0 < recordId ∧ recordId ≤ s.recordIdCounter then
    let r := s.medicalRecords recordId
    if r.status ≠ RecordStatus.Deleted then
     let doctorMedicalId := ids.addressToMedicalId env.sender
     if doctorMedicalId ≠ 0 then
      if r.doctorMedicalId = doctorMedicalId then
       let r' : MedicalRecord :=
         { r with status := .Deleted, lastUpdatedDate := env.timestamp
                  lastUpdatedBy := env.sender }
       .ok { s with medicalRecords := upd s.medicalRecords recordId r' }
      else .error "Only original doctor can delete record"
     else .error "Doctor not registered"
    else .error "Record already deleted"
   else .error "Invalid record ID"
  else .error "Caller is not a registered doctor"

/-- `MedicalRecords.grantAccess`. -/
def grantAccessMR (env : Env) (ids : IdState) (s : MRState)
    (doctorMedicalId expiryDate : Nat) : Except String MRState :=
  if s.roles Role.PATIENT env.sender = true then
   if isValidMedicalId ids doctorMedicalId = true then
    let patientMedicalId := ids.addressToMedicalId env.sender
    if patientMedicalId ≠ 0 then
     if (ids.medicalIdentities doctorMedicalId).entityType = EntityType.Doctor then
      if expiryDate = 0 ∨ expiryDate > env.timestamp then
       let perm : AccessPermission :=
         { hasAccess := true, grantedDate := env.timestamp, expiryDate := expiryDate
           grantedBy := env.sender }
       .ok { s with patientAccess := upd2 s.patientAccess patientMedicalId doctorMedicalId perm }
      else .error "Expiry date must be in the future"
     else .error "Target is not a doctor"
    else .error "Patient not registered"
   else .error "Invalid medical ID"
  else .error "Caller is not a registered patient"

/-- `MedicalRecords._getActiveRecords`: ids of the patient's records whose
status is not `Deleted`, in order. -/
def getActiveRecords (s : MRState) (patientMedicalId : Nat) : List Nat :=
  (s.patientRecords patientMedicalId).filter
    (fun rid => decide ((s.medicalRecords rid).status ≠ RecordStatus.Deleted))

/-- `MedicalRecords.getPatientHistory`.  When the caller is the patient, the
source returns `patientRecords[...]` unfiltered; only other callers get the
Deleted-filtered list. -/
def getPatientHistory (env : Env) (ids : IdState) (s : MRState)
    (patientMedicalId : Nat) : Except String (List Nat) :=
  if isValidMedicalId ids patientMedicalId = true then
   let callerMedicalId := ids.addressToMedicalId env.sender
   if callerMedicalId = patientMedicalId then
    .ok (s.patientRecords patientMedicalId)
   else
    if hasAccessToPatient env.timestamp s patientMedicalId callerMedicalId = true ∨
       s.emergencyAccess patientMedicalId = true then
     .ok (getActiveRecords s patientMedicalId)
    else .error "No access to patient records"
  else .error "Invalid medical ID"

/-- `MedicalRecords.getRecord`.  The `require(record.status != Deleted)` runs
before any caller-specific branch, so a Deleted record reverts for every
caller, the patient and the original doctor included. -/
def getRecord (env : Env) (ids : IdState) (s : MRState) (recordId : Nat) :
    Except String MedicalRecord :=
  if 0 < recordId ∧ recordId ≤ s.recordIdCounter then
   let r := s.medicalRecords recordId
   if r.status ≠ RecordStatus.Deleted then
    let callerMedicalId := ids.addressToMedicalId env.sender
    if callerMedicalId = r.patientMedicalId then .ok r
    else
     if hasAccessToPatient env.timestamp s r.patientMedicalId callerMedicalId = true ∨
        s.emergencyAccess r.patientMedicalId = true then
      .ok r
     else .error "No access to this record"
   else .error "Record has been deleted"
  else .error "Invalid record ID"

/-- `MedicalRecords.getRecordsByType`: filters the patient's records by type
and excludes `Deleted` ones, for every authorized caller. -/
def getRecordsByType (env : Env) (ids : IdState) (s : MRState)
    (patientMedicalId : Nat) (recordType : RecordType) : Except String (List Nat) :=
  if isValidMedicalId ids patientMedicalId = true then
   let callerMedicalId := ids.addressToMedicalId env.sender
   if callerMedicalId = patientMedicalId ∨
      hasAccessToPatient env.timestamp s patientMedicalId callerMedicalId = true ∨
      s.emergencyAccess patientMedicalId = true then
    .ok ((s.patientRecords patientMedicalId).filter
      (fun rid => decide ((s.medicalRecords rid).recordType = recordType) &&
                  decide ((s.medicalRecords rid).status ≠ RecordStatus.Deleted)))
   else .error "No access to patient records"
  else .error "Invalid medical ID"

/-! ## Concrete fixtures

A small deployed system used by witnesses and counterexamples: medical id 1 is
a patient with wallet 10, medical id 2 a doctor with wallet 20, medical id 3 a
pharmacy with wallet 30; all three are `Active`.  Each contract's own role
store mirrors the registrations, as `registerMedicalID` on the identity
contract plus explicit role grants on the satellite contracts would produce. -/

def exRoles : RoleStore := fun r a =>
  decide ((r = Role.PATIENT ∧ a = 10) ∨ (r = Role.DOCTOR ∧ a = 20) ∨
          (r = Role.PHARMACY ∧ a = 30))

def idsEx : IdState :=
  { roles := exRoles
    medicalIdCounter := 3
    medicalIdentities := fun m =>
      if m = 1 then
        { MedicalIdentity.empty with medicalId := 1, walletAddress := 10
                                     entityType := .Patient, status := .Active }
      else if m = 2 then
        { MedicalIdentity.empty with medicalId := 2, walletAddress := 20
                                     entityType := .Doctor, status := .Active }
      else if m = 3 then
        { MedicalIdentity.empty with medicalId := 3, walletAddress := 30
                                     entityType := .Pharmacy, status := .Active }
      else MedicalIdentity.empty
    addressToMedicalId := fun a => if a = 10 then 1 else if a = 20 then 2
                                   else if a = 30 then 3 else 0
    providerCredentials := fun _ => ProviderCredentials.empty
    authorizedGovernmentAddresses := fun _ => false
    patientIdToMedicalId := fun _ => 0
    usedPatientIds := fun _ => false }

/-- Fresh `PrescriptionManagement` storage with the doctor and pharmacy roles
granted on this contract. -/
def pm0 : PMState :=
  { roles := exRoles
    prescriptionIdCounter := 0
    prescriptions := fun _ => Prescription.empty
    patientPrescriptions := fun _ => []
    doctorPrescriptions := fun _ => []
    dispensingHistory := fun _ => []
    pharmacyAccess := fun _ _ => false }

/-- Fresh `MedicalRecords` storage with the doctor and patient roles granted on
this contract. -/
def mr0 : MRState :=
  { roles := exRoles
    recordIdCounter := 0
    medicalRecords := fun _ => MedicalRecord.empty
    patientRecords := fun _ => []
    recordAccess := fun _ _ => AccessPermission.empty
    patientAccess := fun _ _ => AccessPermission.empty
    emergencyAccess := fun _ => false }

/-- Transaction by the patient (wallet 10) at time `t`. -/
def envPat (t : Nat) : Env := { sender := 10, timestamp := t, blockNumber := t }

/-- Transaction by the doctor (wallet 20) at time `t`. -/
def envDoc (t : Nat) : Env := { sender := 20, timestamp := t, blockNumber := t }

/-- Transaction by the pharmacy (wallet 30) at time `t`. -/
def envPhm (t : Nat) : Env := { sender := 30, timestamp := t, blockNumber := t }

/-- Extract the state of a successful `(state, id)`-returning call
(fixtures only use it on calls proven to succeed). -/
def okSt {β : Type} (e : Except String (β × Nat)) (d : β) : β :=
  match e with
  | .ok (s, _) => s
  | .error _ => d

/-- Extract the state of a successful state-returning call. -/
def okSt1 {β : Type} (e : Except String β) (d : β) : β :=
  match e with
  | .ok s => s
  | .error _ => d

/-- A well-formed medication line: 10 prescribed, none dispensed. -/
def medParacetamol : Medication :=
  { name := "Paracetamol", dosage := "500mg", frequency := "2/day", quantity := 10
    quantityDispensed := 0, instructions := "", genericAlternatives := "" }

/-- A malformed medication line a caller can submit: 5 prescribed but
`quantityDispensed` preset to 7. -/
def medPreloaded : Medication :=
  { name := "Amoxicillin", dosage := "250mg", frequency := "3/day", quantity := 5
    quantityDispensed := 7, instructions := "", genericAlternatives := "" }

/-! ## Claim C4 -/

def c4s1 : PMState :=
  okSt (issuePrescription (envDoc 100) idsEx pm0 1 [medPreloaded] "angina" "" 1000
    Urgency.Normal false 0) pm0

/-- C4: the claim says every successful `issuePrescription` stores all
line-item dispensed quantities as 0 regardless of the caller-supplied
`quantityDispensed` values.  The code copies the caller's `Medication` structs
into storage verbatim (source line 236), so a caller-supplied
`quantityDispensed = 7` on a 5-unit line survives into the stored
prescription: the claim describes the evident intent and the code is a slip.
This theorem evaluates the code at the failing input. -/
theorem issuePrescription_copies_caller_quantityDispensed :
    issuePrescription (envDoc 100) idsEx pm0 1 [medPreloaded] "angina" "" 1000
        Urgency.Normal false 0 = .ok (c4s1, 1) ∧
    (c4s1.prescriptions 1).status = PrescriptionStatus.Active ∧
    ((c4s1.prescriptions 1).medications.map (fun m => m.quantityDispensed)) = [7] ∧
    ((c4s1.prescriptions 1).medications.map (fun m => m.quantity)) = [5] :=
  ⟨rfl, rfl, rfl, rfl⟩

/-! ## Claim C8 -/

def c8s1 : PMState :=
  okSt (issuePrescription (envDoc 100) idsEx pm0 1 [medParacetamol] "headache" "" 1000
    Urgency.Normal false 0) pm0

def c8s2 : PMState :=
  okSt1 (dispenseMedication (envPhm 200) idsEx c8s1 1 0 10 "Paracetamol" "") c8s1

def c8s3 : PMState :=
  okSt1 (cancelPrescription (envDoc 300) idsEx c8s2 1 "clerical error") c8s2

/-- C8 counterexample: the claim says `cancelPrescription` never transitions a
prescription whose status is `Dispensed` (or `Expired`) to `Cancelled`.  In
this executable trace the doctor issues a prescription, the pharmacy fully
dispenses it (status `Dispensed`), and the issuing doctor then cancels it
successfully, leaving it `Cancelled` — the source only requires
`status != Cancelled`. -/
theorem cancel_succeeds_on_dispensed :
    issuePrescription (envDoc 100) idsEx pm0 1 [medParacetamol] "headache" "" 1000
        Urgency.Normal false 0 = .ok (c8s1, 1) ∧
    dispenseMedication (envPhm 200) idsEx c8s1 1 0 10 "Paracetamol" "" = .ok c8s2 ∧
    (c8s2.prescriptions 1).status = PrescriptionStatus.Dispensed ∧
    cancelPrescription (envDoc 300) idsEx c8s2 1 "clerical error" = .ok c8s3 ∧
    (c8s3.prescriptions 1).status = PrescriptionStatus.Cancelled :=
  ⟨rfl, rfl, rfl, rfl, rfl⟩

/-- C8 amended: `cancelPrescription`, callable only by the issuing doctor with
a nonempty reason, transitions a prescription to `Cancelled` from any status
other than `Cancelled` itself — including `Dispensed` and `Expired` — and
always fails when the prescription is already `Cancelled`. -/
theorem cancel_iff_not_already_cancelled (env : Env) (ids : IdState) (s : PMState)
    (pid : Nat) (reason : String) :
    (∀ s', cancelPrescription env ids s pid reason = .ok s' →
      (s.prescriptions pid).status ≠ PrescriptionStatus.Cancelled ∧
      (s.prescriptions pid).doctorMedicalId = ids.addressToMedicalId env.sender ∧
      (s'.prescriptions pid).status = PrescriptionStatus.Cancelled) ∧
    ((s.prescriptions pid).status = PrescriptionStatus.Cancelled →
      ∀ s', cancelPrescription env ids s pid reason ≠ .ok s') := by
  constructor
  · intro s' hok
    simp only [cancelPrescription] at hok
    split_ifs at hok with h1 h2 h3 h4 h5
    · simp only [Except.ok.injEq] at hok
      subst hok
      exact ⟨h4, h3, by simp [upd_same]⟩
  · intro hc s' hok
    simp only [cancelPrescription] at hok
    split_ifs at hok with h1 h2 h3 h4 h5
    exact h4 hc

/-- Witness for the amended C8 theorem at a concrete input. -/
theorem cancel_iff_not_already_cancelled_witness :
    (c8s2.prescriptions 1).status ≠ PrescriptionStatus.Cancelled ∧
    (c8s2.prescriptions 1).doctorMedicalId = idsEx.addressToMedicalId 20 ∧
    (c8s3.prescriptions 1).status = PrescriptionStatus.Cancelled :=
  (cancel_iff_not_already_cancelled (envDoc 300) idsEx c8s2 1 "clerical error").1 c8s3 rfl

/-! ## Claim C1 -/

/-- `_updatePrescriptionStatus` only rewrites the status field. -/
theorem updatePrescriptionStatusPure_medications (now : Nat) (p : Prescription) :
    (updatePrescriptionStatusPure now p).medications = p.medications := by
  unfold updatePrescriptionStatusPure
  split <;> rfl

theorem updatePrescriptionStatusPure_expiryDate (now : Nat) (p : Prescription) :
    (updatePrescriptionStatusPure now p).expiryDate = p.expiryDate := by
  unfold updatePrescriptionStatusPure
  split <;> rfl

/-- C1: a `dispenseMedication` call can only succeed when the dispensed
quantity still fits under the line's prescribed quantity (so an overrunning
call fails — and a failing call returns an error with no successor state, i.e.
the prescription is unchanged), and every successful dispense preserves
`dispensed ≤ prescribed` for every line of the prescription. -/
theorem dispense_never_exceeds_prescribed (env : Env) (ids : IdState) (s : PMState)
    (pid midx q : Nat) (am notes : String) :
    (∀ s', dispenseMedication env ids s pid midx q am notes = .ok s' →
      (∃ hm : midx < (s.prescriptions pid).medications.length,
         ((s.prescriptions pid).medications.get ⟨midx, hm⟩).quantityDispensed + q ≤
           ((s.prescriptions pid).medications.get ⟨midx, hm⟩).quantity) ∧
      ((∀ m ∈ (s.prescriptions pid).medications, m.quantityDispensed ≤ m.quantity) →
        ∀ m ∈ (s'.prescriptions pid).medications, m.quantityDispensed ≤ m.quantity)) ∧
    (∀ m, (s.prescriptions pid).medications.get? midx = some m →
      m.quantity < m.quantityDispensed + q →
      ∃ msg, dispenseMedication env ids s pid midx q am notes = .error msg) := by
  constructor
  · intro s' hok
    simp only [dispenseMedication] at hok
    split_ifs at hok with h1 h2 h3 h4 h5 hm h6 h7
    simp only [Except.ok.injEq] at hok
    subst hok
    refine ⟨⟨hm, h7⟩, ?_⟩
    intro hinv m hmem
    simp only [upd_same, updatePrescriptionStatusPure_medications] at hmem
    rcases List.mem_or_eq_of_mem_set hmem with hold | hnew
    · exact hinv m hold
    · subst hnew
      exact h7
  · intro m hget hviol
    cases hres : dispenseMedication env ids s pid midx q am notes with
    | error msg => exact ⟨msg, rfl⟩
    | ok s' =>
      exfalso
      simp only [dispenseMedication] at hres
      split_ifs at hres with h1 h2 h3 h4 h5 hm' h6 h7
      rw [List.get?_eq_get hm'] at hget
      simp only [Option.some.injEq] at hget
      subst hget
      omega

def c1s1 : PMState :=
  okSt (issuePrescription (envDoc 100) idsEx pm0 1 [medParacetamol] "headache" "" 1000
    Urgency.Normal false 0) pm0

def c1s2 : PMState :=
  okSt1 (dispenseMedication (envPhm 200) idsEx c1s1 1 0 6 "Paracetamol" "") c1s1

/-- Witness for C1 at a concrete input: a 6-of-10 dispense on a fresh
prescription keeps every line within its prescribed quantity. -/
theorem dispense_never_exceeds_prescribed_witness :
    ∀ m ∈ (c1s2.prescriptions 1).medications, m.quantityDispensed ≤ m.quantity :=
  ((dispense_never_exceeds_prescribed (envPhm 200) idsEx c1s1 1 0 6 "Paracetamol" "").1
    c1s2 rfl).2 (by decide)

/-! ## Claim C6 -/

/-- When every line satisfies `dispensed ≤ prescribed`, the status chosen by
`_updatePrescriptionStatus` coincides with the specification's derivation on
the resulting prescription. -/
theorem updatePrescriptionStatusPure_matches_spec (now : Nat) (p : Prescription)
    (hinv : ∀ m ∈ p.medications, m.quantityDispensed ≤ m.quantity) :
    (updatePrescriptionStatusPure now p).status =
      specDerivedStatus now (updatePrescriptionStatusPure now p) := by
  have hmeds := updatePrescriptionStatusPure_medications now p
  have hexp := updatePrescriptionStatusPure_expiryDate now p
  unfold updatePrescriptionStatusPure specDerivedStatus at *
  by_cases hE : p.expiryDate ≤ now
  · simp [hE]
  · have hall : (p.medications.all (fun m => decide (m.quantity ≤ m.quantityDispensed))) =
        (p.medications.all (fun m => decide (m.quantityDispensed = m.quantity))) := by
      rcases hfull : p.medications.all (fun m => decide (m.quantity ≤ m.quantityDispensed)) with _ | _
      · rcases heq : p.medications.all (fun m => decide (m.quantityDispensed = m.quantity)) with _ | _
        · rfl
        · exfalso
          rw [List.all_eq_true] at heq
          rw [List.all_eq_false] at hfull
          rcases hfull with ⟨m, hmem, hle⟩
          have := heq m hmem
          simp at this hle
          omega
      · rw [List.all_eq_true] at hfull
        rw [eq_comm, List.all_eq_true]
        intro m hmem
        have h1 := hfull m hmem
        have h2 := hinv m hmem
        simp at h1 ⊢
        omega
    simp only [hE, if_false, if_neg hE]
    simp [hE, hall]


/-- C6 amended: after every successful `dispenseMedication` call **from a state
whose lines satisfy `dispensed ≤ prescribed`**, the stored status equals the
specification's pure derivation from the current time and the per-line
quantities (the embedding is functional, so replaying the same call sequence
trivially yields the same status).  The proviso is forced by the
counterexample below: the code's fully-dispensed test is `dispensed ≥
prescribed`, which diverges from the spec's `dispensed = prescribed` exactly on
lines over-dispensed at issue time. -/
theorem dispense_status_matches_spec_derivation (env : Env) (ids : IdState) (s : PMState)
    (pid midx q : Nat) (am notes : String) (s' : PMState)
    (hok : dispenseMedication env ids s pid midx q am notes = .ok s')
    (hinv : ∀ m ∈ (s.prescriptions pid).medications, m.quantityDispensed ≤ m.quantity) :
    (s'.prescriptions pid).status = specDerivedStatus env.timestamp (s'.prescriptions pid) := by
  simp only [dispenseMedication] at hok
  split_ifs at hok with h1 h2 h3 h4 h5 hm h6 h7
  simp only [Except.ok.injEq] at hok
  subst hok
  simp only [upd_same]
  apply updatePrescriptionStatusPure_matches_spec
  intro m hmem
  simp only at hmem
  rcases List.mem_or_eq_of_mem_set hmem with hold | hnew
  · exact hinv m hold
  · subst hnew
    exact h7

/-- Witness for the amended C6 theorem: the 6-of-10 dispense of the C1 trace
lands on `PartiallyDispensed`, agreeing with the specification's derivation. -/
theorem dispense_status_matches_spec_derivation_witness :
    (c1s2.prescriptions 1).status = specDerivedStatus 200 (c1s2.prescriptions 1) ∧
    (c1s2.prescriptions 1).status = PrescriptionStatus.PartiallyDispensed :=
  ⟨dispense_status_matches_spec_derivation (envPhm 200) idsEx c1s1 1 0 6 "Paracetamol" ""
    c1s2 rfl (by decide), rfl⟩

def c6s1 : PMState :=
  okSt (issuePrescription (envDoc 100) idsEx pm0 1 [medPreloaded, medParacetamol] "angina" ""
    1000 Urgency.Normal false 0) pm0

def c6s2 : PMState :=
  okSt1 (dispenseMedication (envPhm 200) idsEx c6s1 1 1 10 "Paracetamol" "") c6s1

/-- C6 counterexample: an executable trace refuting the claim as stated.  The
doctor issues a prescription whose first line arrives with `quantityDispensed =
7 > quantity = 5` (accepted — see C4); the pharmacy then fully dispenses the
second line.  The stored status becomes `Dispensed`, while the claim's pure
derivation (every line's dispensed **equals** its prescribed quantity, else
`PartiallyDispensed` when some line is positive) yields `PartiallyDispensed`. -/
theorem dispense_status_diverges_from_spec_derivation :
    issuePrescription (envDoc 100) idsEx pm0 1 [medPreloaded, medParacetamol] "angina" ""
        1000 Urgency.Normal false 0 = .ok (c6s1, 1) ∧
    dispenseMedication (envPhm 200) idsEx c6s1 1 1 10 "Paracetamol" "" = .ok c6s2 ∧
    (c6s2.prescriptions 1).status = PrescriptionStatus.Dispensed ∧
    specDerivedStatus 200 (c6s2.prescriptions 1) = PrescriptionStatus.PartiallyDispensed :=
  ⟨rfl, rfl, rfl, rfl⟩

/-! ## Claim C9 -/

/-- C9: the outcome and state effect of `dispenseMedication` are independent of
the `pharmacyAccess` mapping — two states differing only in `pharmacyAccess`
produce the same result (same error, or success states equal up to each
keeping its own `pharmacyAccess`) — and a successful `grantPharmacyAccess`
writes only the `pharmacyAccess` mapping.  Hence the per-prescription grant is
never consulted when dispensing: any pharmacy-role caller passing the other
checks dispenses without such a grant. -/
theorem dispense_independent_of_pharmacyAccess (env : Env) (ids : IdState)
    (roles : RoleStore) (ctr : Nat) (prescs : Nat → Prescription)
    (pats docs : Nat → List Nat) (hist : Nat → List DispensingRecord)
    (pa1 pa2 : Nat → Nat → Bool) (pid midx q : Nat) (am notes : String) :
    dispenseMedication env ids ⟨roles, ctr, prescs, pats, docs, hist, pa1⟩
        pid midx q am notes =
      Except.map (fun t => { t with pharmacyAccess := pa1 })
        (dispenseMedication env ids ⟨roles, ctr, prescs, pats, docs, hist, pa2⟩
          pid midx q am notes) ∧
    (∀ (s : PMState) (pharmacyMedicalId : Nat) (s' : PMState),
      grantPharmacyAccess env ids s pid pharmacyMedicalId = .ok s' →
      s' = { s with pharmacyAccess := upd2 s.pharmacyAccess pid pharmacyMedicalId true }) := by
  constructor
  · dsimp only [dispenseMedication]
    split_ifs <;> rfl
  · intro s pharmacyMedicalId s' hok
    simp only [grantPharmacyAccess] at hok
    split_ifs at hok with h1 h2 h3 h4
    simp only [Except.ok.injEq] at hok
    exact hok.symm

def c9paOn : Nat → Nat → Bool := fun _ _ => true

def c9paOff : Nat → Nat → Bool := fun _ _ => false

def c9sGrant : PMState :=
  okSt1 (grantPharmacyAccess (envPat 150) idsEx c1s1 1 3) c1s1

/-- Witness for C9 at concrete inputs: the same dispense against states
differing only in `pharmacyAccess` (all-false vs all-true), and a concrete
`grantPharmacyAccess` by the patient shown to write only `pharmacyAccess`. -/
theorem dispense_independent_of_pharmacyAccess_witness :
    (dispenseMedication (envPhm 200) idsEx
        ⟨c1s1.roles, c1s1.prescriptionIdCounter, c1s1.prescriptions,
         c1s1.patientPrescriptions, c1s1.doctorPrescriptions, c1s1.dispensingHistory,
         c9paOff⟩ 1 0 6 "Paracetamol" "" =
      Except.map (fun t => { t with pharmacyAccess := c9paOff })
        (dispenseMedication (envPhm 200) idsEx
          ⟨c1s1.roles, c1s1.prescriptionIdCounter, c1s1.prescriptions,
           c1s1.patientPrescriptions, c1s1.doctorPrescriptions, c1s1.dispensingHistory,
           c9paOn⟩ 1 0 6 "Paracetamol" "")) ∧
    c9sGrant = { c1s1 with pharmacyAccess := upd2 c1s1.pharmacyAccess 1 3 true } :=
  ⟨(dispense_independent_of_pharmacyAccess (envPhm 200) idsEx c1s1.roles
      c1s1.prescriptionIdCounter c1s1.prescriptions c1s1.patientPrescriptions
      c1s1.doctorPrescriptions c1s1.dispensingHistory c9paOff c9paOn 1 0 6
      "Paracetamol" "").1,
   (dispense_independent_of_pharmacyAccess (envPat 150) idsEx c1s1.roles
      c1s1.prescriptionIdCounter c1s1.prescriptions c1s1.patientPrescriptions
      c1s1.doctorPrescriptions c1s1.dispensingHistory c9paOff c9paOn 1 0 6
      "Paracetamol" "").2 c1s1 3 c9sGrant rfl⟩

/-! ## Claim C10 -/

/-- C10: `registerMedicalID` grants the entity's role in the
`IdentityManagement` contract's own role store only — its signature cannot even
reach the storage of `PrescriptionManagement` or `MedicalRecords` — and the
`onlyRegisteredPharmacy` / `onlyRegisteredDoctor` modifiers of those contracts
consult their own stores, so a freshly registered identity still fails them
wherever the local store lacks the role.  (`registerPatientPassport` likewise
grants `PATIENT_ROLE` only in the identity contract's store.) -/
theorem register_grants_role_only_locally (env : Env) (ids ids' : IdState) (w : Addr)
    (et : EntityType) (d k : String) (mid : Nat)
    (hok : registerMedicalID env ids w et d k = .ok (ids', mid)) :
    ids'.roles (roleOfEntity et) w = true ∧
    (∀ (s : PMState) (env2 : Env) (pid midx q : Nat) (am notes : String),
      env2.sender = w → s.roles Role.PHARMACY w = false →
      dispenseMedication env2 ids' s pid midx q am notes =
        .error "Caller is not a registered pharmacy") ∧
    (∀ (s : MRState) (env2 : Env) (p : Nat) (rt : RecordType) (ed t sm : String),
      env2.sender = w → s.roles Role.DOCTOR w = false →
      createRecord env2 ids' s p rt ed t sm =
        .error "Caller is not a registered doctor") ∧
    (∀ (env3 : Env) (ids3 ids3' : IdState) (w3 : Addr) (a b c dd e f g h i j kk : String)
       (mid3 : Nat),
      registerPatientPassport env3 ids3 w3 a b c dd e f g h i j kk = .ok (ids3', mid3) →
      ids3'.roles Role.PATIENT w3 = true) := by
  refine ⟨?_, ?_, ?_, ?_⟩
  · simp only [registerMedicalID] at hok
    split_ifs at hok with h1 h2 h3 h4 h5 h6
    all_goals
      simp only [Except.ok.injEq, Prod.mk.injEq] at hok
      rw [← hok.1]
      simp [grantRoleMap]
  · intro s env2 pid midx q am notes hsender hrole
    rw [dispenseMedication, hsender, hrole]
    rfl
  · intro s env2 p rt ed t sm hsender hrole
    rw [createRecord, hsender, hrole]
    rfl
  · intro env3 ids3 ids3' w3 a b c dd e f g h i j kk mid3 hok3
    rw [registerPatientPassport] at hok3
    split at hok3
    · exact Except.noConfusion hok3
    · simp only [Except.ok.injEq, Prod.mk.injEq] at hok3
      rw [← hok3.1]
      simp [registerPatientPassportEffect, grantRoleMap]

/-- Identity state with only a government registrar (wallet 1). -/
def idsGov : IdState :=
  { roles := fun r a => decide (r = Role.GOVERNMENT ∧ a = 1)
    medicalIdCounter := 0
    medicalIdentities := fun _ => MedicalIdentity.empty
    addressToMedicalId := fun _ => 0
    providerCredentials := fun _ => ProviderCredentials.empty
    authorizedGovernmentAddresses := fun a => decide (a = 1)
    patientIdToMedicalId := fun _ => 0
    usedPatientIds := fun _ => false }

def envGov (t : Nat) : Env := { sender := 1, timestamp := t, blockNumber := t }

def c10ids : IdState :=
  okSt (registerMedicalID (envGov 50) idsGov 40 EntityType.Pharmacy "enc" "pk") idsGov

/-- Witness for C10: registering wallet 40 as a pharmacy grants
`PHARMACY_ROLE` in the identity contract's store, yet wallet 40 still fails
`dispenseMedication` and `createRecord` against contracts whose own stores do
not know it. -/
theorem register_grants_role_only_locally_witness :
    c10ids.roles (roleOfEntity EntityType.Pharmacy) 40 = true ∧
    dispenseMedication { sender := 40, timestamp := 60, blockNumber := 60 } c10ids pm0
        1 0 1 "x" "" = .error "Caller is not a registered pharmacy" ∧
    createRecord { sender := 40, timestamp := 60, blockNumber := 60 } c10ids mr0
        1 RecordType.Consultation "e" "t" "s" =
      .error "Caller is not a registered doctor" := by
  have h := register_grants_role_only_locally (envGov 50) idsGov c10ids 40
    EntityType.Pharmacy "enc" "pk" 1 rfl
  exact ⟨h.1, h.2.1 pm0 { sender := 40, timestamp := 60, blockNumber := 60 } 1 0 1 "x" ""
    rfl (by decide), h.2.2.1 mr0 { sender := 40, timestamp := 60, blockNumber := 60 } 1
    RecordType.Consultation "e" "t" "s" rfl (by decide)⟩

/-! ## Claim C7 -/

/-- C7 amended: `getRecordsByType` always excludes `Deleted` records, and
`getPatientHistory` excludes them for callers other than the patient; but the
patient's own `getPatientHistory` returns the full record-id list, Deleted ids
included, and `getRecord` on a `Deleted` record reverts with
"Record has been deleted" for **every** caller — the patient and the original
authoring doctor included — because the status check precedes every
caller-specific branch. -/
theorem deleted_record_visibility (env : Env) (ids : IdState) (s : MRState) :
    (∀ p rt l, getRecordsByType env ids s p rt = .ok l →
       ∀ rid ∈ l, (s.medicalRecords rid).status ≠ RecordStatus.Deleted) ∧
    (∀ p l, getPatientHistory env ids s p = .ok l →
       ids.addressToMedicalId env.sender ≠ p →
       ∀ rid ∈ l, (s.medicalRecords rid).status ≠ RecordStatus.Deleted) ∧
    (∀ p, ids.addressToMedicalId env.sender = p → isValidMedicalId ids p = true →
       getPatientHistory env ids s p = .ok (s.patientRecords p)) ∧
    (∀ rid, 0 < rid → rid ≤ s.recordIdCounter →
       (s.medicalRecords rid).status = RecordStatus.Deleted →
       getRecord env ids s rid = .error "Record has been deleted") := by
  refine ⟨?_, ?_, ?_, ?_⟩
  · intro p rt l hok rid hmem
    simp only [getRecordsByType] at hok
    split_ifs at hok with h1 h2
    simp only [Except.ok.injEq] at hok
    subst hok
    simp only [List.mem_filter, Bool.and_eq_true, decide_eq_true_eq] at hmem
    exact hmem.2.2
  · intro p l hok hne rid hmem
    simp only [getPatientHistory] at hok
    split_ifs at hok with h1 h2
    simp only [Except.ok.injEq] at hok
    subst hok
    simp only [getActiveRecords, List.mem_filter, decide_eq_true_eq] at hmem
    exact hmem.2
  · intro p hcaller hvalid
    simp only [getPatientHistory, hvalid, if_true, hcaller, if_pos rfl]
  · intro rid hpos hle hdel
    simp only [getRecord]
    rw [if_pos ⟨hpos, hle⟩, if_neg]
    simp [hdel]

def c7s1 : MRState := okSt1 (grantAccessMR (envPat 50) idsEx mr0 2 0) mr0

def c7s2 : MRState :=
  okSt (createRecord (envDoc 100) idsEx c7s1 1 RecordType.Consultation "QmHash" "Visit"
    "routine") c7s1

def c7s3 : MRState := okSt1 (deleteRecord (envDoc 150) idsEx c7s2 1) c7s2

/-- C7 counterexample: in an executable trace (patient 1 grants doctor 2
access, the doctor creates record 1 and then soft-deletes it), the record is
`Deleted`, yet `getRecord` reverts for the patient and for the original
authoring doctor — the claim says both still receive the record — and the
patient's own `getPatientHistory` still lists the deleted id. -/
theorem getRecord_fails_for_patient_on_deleted :
    grantAccessMR (envPat 50) idsEx mr0 2 0 = .ok c7s1 ∧
    createRecord (envDoc 100) idsEx c7s1 1 RecordType.Consultation "QmHash" "Visit"
        "routine" = .ok (c7s2, 1) ∧
    deleteRecord (envDoc 150) idsEx c7s2 1 = .ok c7s3 ∧
    (c7s3.medicalRecords 1).status = RecordStatus.Deleted ∧
    (c7s3.medicalRecords 1).patientMedicalId = 1 ∧
    (c7s3.medicalRecords 1).doctorMedicalId = 2 ∧
    getRecord (envPat 200) idsEx c7s3 1 = .error "Record has been deleted" ∧
    getRecord (envDoc 200) idsEx c7s3 1 = .error "Record has been deleted" ∧
    getPatientHistory (envPat 200) idsEx c7s3 1 = .ok [1] :=
  ⟨rfl, rfl, rfl, rfl, rfl, rfl, rfl, rfl, rfl⟩

/-- Witness for the amended C7 theorem at concrete inputs: a non-patient,
non-author caller's history query against the trace state excludes the deleted
record, the patient's own query returns the raw list, and `getRecord` reverts
on the deleted record. -/
theorem deleted_record_visibility_witness :
    (∀ rid ∈ ([] : List Nat), (c7s3.medicalRecords rid).status ≠ RecordStatus.Deleted) ∧
    getPatientHistory (envPat 200) idsEx c7s3 1 = .ok (c7s3.patientRecords 1) ∧
    getRecord (envPat 200) idsEx c7s3 1 = .error "Record has been deleted" := by
  refine ⟨?_, ?_, ?_⟩
  · exact (deleted_record_visibility (envDoc 200) idsEx c7s3).2.1 1 [] rfl (by decide)
  · exact (deleted_record_visibility (envPat 200) idsEx c7s3).2.2.1 1 rfl (by decide)
  · exact (deleted_record_visibility (envPat 200) idsEx c7s3).2.2.2 1 (by decide) (by decide)
      (by decide)

/-! ## Claim C3 -/

/-- When the resolved consent has a nonzero `validTo` lying strictly in the
past, `checkConsentResult` reports no access — regardless of the stored status
— unless emergency access plus the record's `emergencyOverride` intervene. -/
theorem checkConsentResult_expired (now : Nat) (s : CMState) (p g : Nat) (sc : DataScope)
    (cid : Nat) (hcid : resolvedCid s p g sc = cid) (hnz : cid ≠ 0)
    (hvt : (s.consents cid).validTo ≠ 0) (hlt : (s.consents cid).validTo < now)
    (hnoem : ¬((s.emergencyAccessSettings p).enabled = true ∧
              (s.consents cid).emergencyOverride = true)) :
    checkConsentResult now s p g sc = (false, cid, (s.consents cid).validTo) := by
  have hdec : decide ((s.consents cid).validTo = 0 ∨ (s.consents cid).validTo > now)
      = false := by
    simp only [decide_eq_false_iff_not]
    omega
  by_cases hem : (s.emergencyAccessSettings p).enabled = true
  · have hov : (s.consents cid).emergencyOverride = false := by
      cases hb : (s.consents cid).emergencyOverride
      · rfl
      · exact absurd ⟨hem, hb⟩ hnoem
    simp [checkConsentResult, hcid, hnz, hdec, hem, hov]
  · simp [checkConsentResult, hcid, hnz, hdec, hem]

/-- C3 amended: immediately after a successful `grantConsent`, `checkConsent`
for the granted tuple returns `hasAccess = true`; and at any time strictly
after a nonzero `validTo` of the resolved consent, `checkConsent` returns
`hasAccess = false` — with no regard to the stored status, which may still be
`Active` before `cleanupExpiredConsents` runs, and with no state mutation
(`checkConsent` returns a value and no successor state by construction) —
**unless** the patient has emergency access enabled and the resolved consent
carries `emergencyOverride = true`, in which case the post-expiry answer is
`true` (the exception the counterexample below forces). -/
theorem checkConsent_grant_then_expiry (env : Env) (ids : IdState) (s : CMState) :
    (∀ (newId granteeMedicalId : Nat) (scope : DataScope) (validTo : Nat)
       (purpose : String) (eo : Bool) (s' : CMState) (r : Nat),
      grantConsent env ids s newId granteeMedicalId scope validTo purpose eo = .ok (s', r) →
      isValidMedicalId ids (ids.addressToMedicalId env.sender) = true →
      newId ≠ 0 →
      checkConsent env ids s' (ids.addressToMedicalId env.sender) granteeMedicalId scope =
        .ok (true, newId, validTo)) ∧
    (∀ (p g : Nat) (sc : DataScope) (cid : Nat),
      isValidMedicalId ids p = true → isValidMedicalId ids g = true →
      resolvedCid s p g sc = cid → cid ≠ 0 →
      (s.consents cid).validTo ≠ 0 →
      (s.consents cid).validTo < env.timestamp →
      ¬((s.emergencyAccessSettings p).enabled = true ∧
        (s.consents cid).emergencyOverride = true) →
      checkConsent env ids s p g sc = .ok (false, cid, (s.consents cid).validTo)) := by
  constructor
  · intro newId granteeMedicalId scope validTo purpose eo s' r hok hvp hnz
    simp only [grantConsent] at hok
    split_ifs at hok with h1 h2 h3 h4 h5 h6 h7
    simp only [Except.ok.injEq, Prod.mk.injEq] at hok
    obtain ⟨hs', hr⟩ := hok
    subst hs'
    simp only [checkConsent, hvp, h2, if_true]
    have hslot : (grantConsentEffect env s newId (ids.addressToMedicalId env.sender)
        granteeMedicalId scope validTo purpose eo).activeConsents
          (ids.addressToMedicalId env.sender) granteeMedicalId scope = newId := by
      simp [grantConsentEffect, upd3_same]
    have hrec : (grantConsentEffect env s newId (ids.addressToMedicalId env.sender)
        granteeMedicalId scope validTo purpose eo).consents newId =
        { patientMedicalId := ids.addressToMedicalId env.sender
          granteeMedicalId := granteeMedicalId, scope := scope, status := .Active
          validFrom := env.timestamp, validTo := validTo, grantedBy := env.sender
          revokedBy := 0, purpose := purpose, emergencyOverride := eo
          createdAt := env.timestamp, updatedAt := env.timestamp } := by
      simp [grantConsentEffect, upd_same]
    have hres : resolvedCid (grantConsentEffect env s newId
        (ids.addressToMedicalId env.sender) granteeMedicalId scope validTo purpose eo)
        (ids.addressToMedicalId env.sender) granteeMedicalId scope = newId := by
      simp [resolvedCid, hslot, hnz]
    have hne : (validTo = 0 ∨ validTo > env.timestamp) := h6
    simp [checkConsentResult, hres, hrec, hnz, hne]
  · intro p g sc cid hvp hvg hcid hnz hvt hlt hnoem
    simp only [checkConsent, hvp, hvg, if_true]
    rw [checkConsentResult_expired env.timestamp s p g sc cid hcid hnz hvt hlt hnoem]

def cm3a : CMState :=
  okSt (grantConsent (envPat 100) idsEx CMState.init 77 2 DataScope.ClinicalNotes 150
    "follow-up" true) CMState.init

def cm3b : CMState :=
  okSt1 (toggleEmergencyAccess (envPat 110) idsEx cm3a true "life-threatening emergencies")
    cm3a

/-- C3 counterexample: an executable trace refuting the claim as stated.  The
patient grants doctor 2 a ClinicalNotes consent valid until 150 with
`emergencyOverride = true` and enables emergency access; at time 200 — strictly
after the nonzero `validTo`, with the consent unswept and its stored status
still `Active` — `checkConsent` returns `hasAccess = true` through the
emergency branch, where the claim requires `false`. -/
theorem checkConsent_true_after_expiry_with_emergency :
    grantConsent (envPat 100) idsEx CMState.init 77 2 DataScope.ClinicalNotes 150
        "follow-up" true = .ok (cm3a, 77) ∧
    toggleEmergencyAccess (envPat 110) idsEx cm3a true "life-threatening emergencies" =
        .ok cm3b ∧
    (cm3b.consents 77).validTo = 150 ∧
    (cm3b.consents 77).status = ConsentStatus.Active ∧
    (150 : Nat) < 200 ∧
    checkConsent (envPat 200) idsEx cm3b 1 2 DataScope.ClinicalNotes = .ok (true, 77, 150) :=
  ⟨rfl, rfl, rfl, rfl, by omega, rfl⟩

/-- Witness for the amended C3 theorem: the grant of the trace above yields
immediate access at grant time, and at time 200 the expired consent (emergency
access not yet enabled in state `cm3a`) yields no access. -/
theorem checkConsent_grant_then_expiry_witness :
    checkConsent (envPat 100) idsEx cm3a 1 2 DataScope.ClinicalNotes = .ok (true, 77, 150) ∧
    checkConsent (envPat 200) idsEx cm3a 1 2 DataScope.ClinicalNotes = .ok (false, 77, 150) := by
  constructor
  · exact (checkConsent_grant_then_expiry (envPat 100) idsEx CMState.init).1 77 2
      DataScope.ClinicalNotes 150 "follow-up" true cm3a 77 rfl (by decide) (by decide)
  · exact (checkConsent_grant_then_expiry (envPat 200) idsEx cm3a).2 1 2
      DataScope.ClinicalNotes 77 (by decide) (by decide) rfl (by decide) (by decide)
      (by decide) (by decide)

/-! ## Claim C5 -/

/-- C5 amended: the FullAccess fallback of `checkConsent` applies exactly when
the exact-scope `activeConsents` slot is **zero** (no exact-scope consent was
ever indexed, or it was revoked or swept): in that case an Active, non-expired
FullAccess consent yields `hasAccess = true`.  A logically expired but
not-yet-swept exact-scope consent still occupies the slot, preempts the
fallback, and yields `hasAccess = false` (absent emergency override), as the
counterexample below shows. -/
theorem checkConsent_fullaccess_fallback (env : Env) (ids : IdState) (s : CMState)
    (p g : Nat) (sc : DataScope) (cid : Nat)
    (hvp : isValidMedicalId ids p = true) (hvg : isValidMedicalId ids g = true)
    (hslot : s.activeConsents p g sc = 0)
    (hfa : s.activeConsents p g DataScope.FullAccess = cid) (hnz : cid ≠ 0)
    (hact : (s.consents cid).status = ConsentStatus.Active)
    (hne : (s.consents cid).validTo = 0 ∨ env.timestamp < (s.consents cid).validTo) :
    checkConsent env ids s p g sc = .ok (true, cid, (s.consents cid).validTo) := by
  have hres : resolvedCid s p g sc = cid := by
    simp [resolvedCid, hslot, hfa]
  simp only [checkConsent, hvp, hvg, if_true]
  simp [checkConsentResult, hres, hnz, hact, hne]

def cm5a : CMState :=
  okSt (grantConsent (envPat 100) idsEx CMState.init 77 2 DataScope.ClinicalNotes 150
    "clinic visit" false) CMState.init

def cm5b : CMState :=
  okSt (grantConsent (envPat 110) idsEx cm5a 88 2 DataScope.FullAccess 0
    "treating physician" false) cm5a

/-- C5 counterexample: an executable trace refuting the claim as stated.  The
patient grants doctor 2 a ClinicalNotes consent valid until 150 and a
FullAccess consent with no expiry.  At time 200 the exact-scope consent is
logically expired but unswept (stored status still `Active`, slot still set),
while the FullAccess consent is Active and non-expired — yet `checkConsent`
returns `hasAccess = false`, because the nonzero exact-scope slot preempts the
FullAccess fallback. -/
theorem checkConsent_expired_exact_blocks_fullaccess :
    grantConsent (envPat 100) idsEx CMState.init 77 2 DataScope.ClinicalNotes 150
        "clinic visit" false = .ok (cm5a, 77) ∧
    grantConsent (envPat 110) idsEx cm5a 88 2 DataScope.FullAccess 0
        "treating physician" false = .ok (cm5b, 88) ∧
    cm5b.activeConsents 1 2 DataScope.ClinicalNotes = 77 ∧
    (cm5b.consents 77).status = ConsentStatus.Active ∧
    (cm5b.consents 77).validTo = 150 ∧ (150 : Nat) < 200 ∧
    cm5b.activeConsents 1 2 DataScope.FullAccess = 88 ∧
    (cm5b.consents 88).status = ConsentStatus.Active ∧
    (cm5b.consents 88).validTo = 0 ∧
    (cm5b.emergencyAccessSettings 1).enabled = false ∧
    checkConsent (envPat 200) idsEx cm5b 1 2 DataScope.ClinicalNotes = .ok (false, 77, 150) :=
  ⟨rfl, rfl, rfl, rfl, rfl, by omega, rfl, rfl, rfl, rfl, rfl⟩

def cm5c : CMState := cleanupExpiredConsents (envPat 200) cm5b [77]

/-- Witness for the amended C5 theorem: after `cleanupExpiredConsents` sweeps
the expired exact-scope consent (clearing its slot), the FullAccess fallback
grants access. -/
theorem checkConsent_fullaccess_fallback_witness :
    checkConsent (envPat 200) idsEx cm5c 1 2 DataScope.ClinicalNotes = .ok (true, 88, 0) :=
  checkConsent_fullaccess_fallback (envPat 200) idsEx cm5c 1 2 DataScope.ClinicalNotes 88
    (by decide) (by decide) rfl rfl (by decide) rfl (Or.inl rfl)

/-! ## Claim C2 -/

/-- Consent-index soundness: every nonzero `activeConsents` slot points at a
record that matches the slot's tuple, is `Active`, and has a nonzero patient id
(in particular every slot with patient 0 is empty). -/
def SlotsSound (s : CMState) : Prop :=
  ∀ p g sc, s.activeConsents p g sc ≠ 0 →
    p ≠ 0 ∧
    (s.consents (s.activeConsents p g sc)).patientMedicalId = p ∧
    (s.consents (s.activeConsents p g sc)).granteeMedicalId = g ∧
    (s.consents (s.activeConsents p g sc)).scope = sc ∧
    (s.consents (s.activeConsents p g sc)).status = ConsentStatus.Active

/-- Consent-index completeness: every real (`patientMedicalId ≠ 0`) Active
consent record is the one its own tuple's `activeConsents` slot points at.
Together with `SlotsSound` this forces at most one Active record per tuple. -/
def ActiveIndexed (s : CMState) : Prop :=
  ∀ cid, (s.consents cid).patientMedicalId ≠ 0 →
    (s.consents cid).status = ConsentStatus.Active →
    s.activeConsents (s.consents cid).patientMedicalId
      (s.consents cid).granteeMedicalId (s.consents cid).scope = cid

/-- The inductive invariant of the `ConsentManagement` contract.  The third
component records that the `bytes32(0)` sentinel id never holds a real
consent, which the keccak-freshness of granted ids maintains. -/
def ConsentInv (s : CMState) : Prop :=
  SlotsSound s ∧ ActiveIndexed s ∧ (s.consents 0).patientMedicalId = 0

theorem consentInv_init : ConsentInv CMState.init := by
  refine ⟨?_, ?_, rfl⟩
  · intro p g sc h
    exact absurd rfl h
  · intro cid hreal _
    exact absurd rfl hreal

/-- Clearing one Active record (revocation or expiry sweep): replacing the
record at `cid` by a non-Active record with the same tuple and zeroing the
tuple's slot preserves the invariant, whatever happens to the list and
emergency fields. -/
theorem clear_preserves (s : CMState) (cid : Nat) (c' : ConsentRecord)
    (hinv : ConsentInv s)
    (hact : (s.consents cid).status = ConsentStatus.Active)
    (hp : c'.patientMedicalId = (s.consents cid).patientMedicalId)
    (hg : c'.granteeMedicalId = (s.consents cid).granteeMedicalId)
    (hsc : c'.scope = (s.consents cid).scope)
    (hna : c'.status ≠ ConsentStatus.Active)
    (pc gc : Nat → List Nat) (ea : Nat → EmergencyAccessSetting) :
    ConsentInv
      { consents := upd s.consents cid c'
        patientConsents := pc, granteeConsents := gc, emergencyAccessSettings := ea
        activeConsents := upd3 s.activeConsents (s.consents cid).patientMedicalId
          (s.consents cid).granteeMedicalId (s.consents cid).scope 0 } := by
  obtain ⟨hA, hB, hZ⟩ := hinv
  refine ⟨?_, ?_, ?_⟩
  · intro p g sc h
    dsimp only at h ⊢
    by_cases heq : p = (s.consents cid).patientMedicalId ∧
        g = (s.consents cid).granteeMedicalId ∧ sc = (s.consents cid).scope
    · exfalso
      apply h
      simp [upd3, heq]
    · rw [upd3_other _ _ _ _ _ _ _ _ heq] at h ⊢
      obtain ⟨hp0, hpm, hgm, hscm, hst⟩ := hA p g sc h
      have hne : s.activeConsents p g sc ≠ cid := by
        intro hcontra
        exact heq ⟨by rw [← hcontra, hpm], by rw [← hcontra, hgm], by rw [← hcontra, hscm]⟩
      rw [upd_other _ _ _ _ hne]
      exact ⟨hp0, hpm, hgm, hscm, hst⟩
  · intro cid' hreal hact'
    dsimp only at hreal hact' ⊢
    by_cases hc : cid' = cid
    · subst hc
      rw [upd_same] at hact'
      exact absurd hact' hna
    · rw [upd_other _ _ _ _ hc] at hreal hact' ⊢
      have hidx := hB cid' hreal hact'
      rw [upd3_other]
      · exact hidx
      · rintro ⟨h1, h2, h3⟩
        have hrealc : (s.consents cid).patientMedicalId ≠ 0 := by
          rw [← h1]
          exact hreal
        have hidxc := hB cid hrealc hact
        rw [← h1, ← h2, ← h3] at hidxc
        exact hc (hidx.symm.trans hidxc)
  · dsimp only
    by_cases hc : (0 : Nat) = cid
    · rw [← hc, upd_same, hp, ← hc]
      exact hZ
    · rw [upd_other _ _ _ _ hc]
      exact hZ

/-- `_revokeConsent` preserves the invariant when aimed at an Active record. -/
theorem revokeConsentInternal_preserves (env : Env) (s : CMState) (cid : Nat)
    (hinv : ConsentInv s)
    (hact : (s.consents cid).status = ConsentStatus.Active) :
    ConsentInv (revokeConsentInternal env s cid) :=
  clear_preserves s cid
    { s.consents cid with status := .Revoked, revokedBy := env.sender
                          updatedAt := env.timestamp }
    hinv hact rfl rfl rfl (by intro h; simp at h)
    s.patientConsents s.granteeConsents s.emergencyAccessSettings

/-- Adding a fresh Active record for tuple `(pid, g, sc)` whose slot is empty,
and pointing the slot at it, preserves the invariant. -/
theorem addActive_preserves (s1 : CMState) (newId pid g : Nat) (sc : DataScope)
    (c : ConsentRecord)
    (hinv : ConsentInv s1)
    (hslot : s1.activeConsents pid g sc = 0)
    (hfresh : (s1.consents newId).patientMedicalId = 0)
    (hnz : newId ≠ 0) (hpid : pid ≠ 0)
    (hcp : c.patientMedicalId = pid) (hcg : c.granteeMedicalId = g)
    (hcs : c.scope = sc) (hca : c.status = ConsentStatus.Active)
    (pc gc : Nat → List Nat) (ea : Nat → EmergencyAccessSetting) :
    ConsentInv
      { consents := upd s1.consents newId c
        patientConsents := pc, granteeConsents := gc, emergencyAccessSettings := ea
        activeConsents := upd3 s1.activeConsents pid g sc newId } := by
  obtain ⟨hA, hB, hZ⟩ := hinv
  refine ⟨?_, ?_, ?_⟩
  · intro p' g' sc' h
    dsimp only at h ⊢
    by_cases heq : p' = pid ∧ g' = g ∧ sc' = sc
    · obtain ⟨e1, e2, e3⟩ := heq
      subst e1; subst e2; subst e3
      rw [upd3_same, upd_same]
      exact ⟨hpid, hcp, hcg, hcs, hca⟩
    · rw [upd3_other _ _ _ _ _ _ _ _ heq] at h ⊢
      obtain ⟨hp0, hpm, hgm, hscm, hst⟩ := hA p' g' sc' h
      have hne : s1.activeConsents p' g' sc' ≠ newId := by
        intro hcontra
        rw [hcontra, hfresh] at hpm
        exact hp0 hpm.symm
      rw [upd_other _ _ _ _ hne]
      exact ⟨hp0, hpm, hgm, hscm, hst⟩
  · intro cid' hreal hact'
    dsimp only at hreal hact' ⊢
    by_cases hc : cid' = newId
    · subst hc
      rw [upd_same] at hreal hact' ⊢
      rw [hcp, hcg, hcs]
      exact upd3_same _ _ _ _ _
    · rw [upd_other _ _ _ _ hc] at hreal hact' ⊢
      have hidx := hB cid' hreal hact'
      rw [upd3_other]
      · exact hidx
      · rintro ⟨h1, h2, h3⟩
        rw [h1, h2, h3] at hidx
        rw [hidx.symm.trans hslot] at hreal
        exact hreal hZ
  · dsimp only
    rw [upd_other _ _ _ _ (Ne.symm hnz)]
    exact hZ

/-- The storage effect of a successful `grantConsent` preserves the invariant,
given the keccak-freshness of the new consent id. -/
theorem grantConsentEffect_preserves (env : Env) (s : CMState)
    (newId pid g : Nat) (sc : DataScope) (validTo : Nat) (purpose : String) (eo : Bool)
    (hinv : ConsentInv s)
    (hfresh : (s.consents newId).patientMedicalId = 0)
    (hnz : newId ≠ 0) (hpid : pid ≠ 0) :
    ConsentInv (grantConsentEffect env s newId pid g sc validTo purpose eo) := by
  unfold grantConsentEffect
  by_cases hE : s.activeConsents pid g sc ≠ 0
  · obtain ⟨hp0, hpm, hgm, hscm, hst⟩ := hinv.1 pid g sc hE
    have hne : newId ≠ s.activeConsents pid g sc := by
      intro hcontra
      rw [← hcontra, hfresh] at hpm
      exact hpid hpm.symm
    have hinv1 : ConsentInv (revokeConsentInternal env s (s.activeConsents pid g sc)) :=
      revokeConsentInternal_preserves env s _ hinv hst
    have hslot1 : (revokeConsentInternal env s (s.activeConsents pid g sc)).activeConsents
        pid g sc = 0 := by
      simp only [revokeConsentInternal]
      rw [hpm, hgm, hscm]
      exact upd3_same _ _ _ _ _
    have hfresh1 : ((revokeConsentInternal env s
        (s.activeConsents pid g sc)).consents newId).patientMedicalId = 0 := by
      simp only [revokeConsentInternal]
      rw [upd_other _ _ _ _ hne]
      exact hfresh
    simp only [if_pos hE]
    exact addActive_preserves _ newId pid g sc _ hinv1 hslot1 hfresh1 hnz hpid
      rfl rfl rfl rfl _ _ _
  · push_neg at hE
    simp only [hE, ne_eq, not_true_eq_false, if_false]
    exact addActive_preserves s newId pid g sc _ hinv hE hfresh hnz hpid
      rfl rfl rfl rfl _ _ _

/-- `cleanupOne` preserves the invariant. -/
theorem cleanupOne_preserves (now : Nat) (s : CMState) (cid : Nat)
    (hinv : ConsentInv s) : ConsentInv (cleanupOne now s cid) := by
  simp only [cleanupOne]
  split_ifs with hcond
  · exact clear_preserves s cid
      { s.consents cid with status := ConsentStatus.Expired, updatedAt := now }
      hinv hcond.1 rfl rfl rfl (by intro h; simp at h)
      s.patientConsents s.granteeConsents s.emergencyAccessSettings
  · exact hinv

/-- `cleanupExpiredConsents` preserves the invariant. -/
theorem cleanupExpiredConsents_preserves (env : Env) (s : CMState) (cids : List Nat)
    (hinv : ConsentInv s) : ConsentInv (cleanupExpiredConsents env s cids) := by
  unfold cleanupExpiredConsents
  induction cids generalizing s with
  | nil => exact hinv
  | cons c cs ih => exact ih _ (cleanupOne_preserves env.timestamp s c hinv)

/-- Every contract transition preserves the invariant. -/
theorem cmStep_preserves {s s' : CMState} (hs : CMStep s s') (hinv : ConsentInv s) :
    ConsentInv s' := by
  cases hs with
  | grant env ids s s' newId granteeMedicalId r scope validTo purpose eo hfresh hnz hok =>
    simp only [grantConsent] at hok
    split_ifs at hok with h1 h2 h3 h4 h5 h6 h7
    simp only [Except.ok.injEq, Prod.mk.injEq] at hok
    rw [← hok.1]
    exact grantConsentEffect_preserves env s newId _ granteeMedicalId scope validTo
      purpose eo hinv hfresh hnz h3
  | revoke env ids s s' cid reason hok =>
    simp only [revokeConsent] at hok
    split_ifs at hok with h1 h2 h3 h4
    simp only [Except.ok.injEq] at hok
    rw [← hok]
    exact revokeConsentInternal_preserves env s cid hinv h3
  | toggle env ids s s' enabled conditions hok =>
    simp only [toggleEmergencyAccess] at hok
    split_ifs at hok with h1 h2
    simp only [Except.ok.injEq] at hok
    rw [← hok]
    exact hinv
  | cleanup env s cids =>
    exact cleanupExpiredConsents_preserves env s cids hinv

/-- The invariant holds in every reachable state. -/
theorem cmReachable_inv {s : CMState} (hr : CMReachable s) : ConsentInv s := by
  induction hr with
  | init => exact consentInv_init
  | step hr hs ih => exact cmStep_preserves hs ih

/-- C2: in every reachable `ConsentManagement` state at most one consent
record per (patient, grantee, scope) tuple is Active — any two real Active
records agreeing on the tuple are the same record — and when `grantConsent`
succeeds for a tuple whose `activeConsents` slot holds a previous consent, that
previous record's status becomes `Revoked` with `revokedBy` set to the caller
in the same operation that creates the new Active record. -/
theorem at_most_one_active_consent (s : CMState) (hr : CMReachable s) :
    (∀ c1 c2 : Nat,
      (s.consents c1).patientMedicalId ≠ 0 → (s.consents c2).patientMedicalId ≠ 0 →
      (s.consents c1).status = ConsentStatus.Active →
      (s.consents c2).status = ConsentStatus.Active →
      (s.consents c1).patientMedicalId = (s.consents c2).patientMedicalId →
      (s.consents c1).granteeMedicalId = (s.consents c2).granteeMedicalId →
      (s.consents c1).scope = (s.consents c2).scope →
      c1 = c2) ∧
    (∀ (env : Env) (ids : IdState) (newId granteeMedicalId : Nat) (scope : DataScope)
       (validTo : Nat) (purpose : String) (eo : Bool) (s' : CMState) (r : Nat),
      (s.consents newId).patientMedicalId = 0 → newId ≠ 0 →
      grantConsent env ids s newId granteeMedicalId scope validTo purpose eo = .ok (s', r) →
      s.activeConsents (ids.addressToMedicalId env.sender) granteeMedicalId scope ≠ 0 →
      (s'.consents (s.activeConsents (ids.addressToMedicalId env.sender)
          granteeMedicalId scope)).status = ConsentStatus.Revoked ∧
      (s'.consents (s.activeConsents (ids.addressToMedicalId env.sender)
          granteeMedicalId scope)).revokedBy = env.sender ∧
      (s'.consents newId).status = ConsentStatus.Active ∧
      (s'.consents newId).patientMedicalId = ids.addressToMedicalId env.sender) := by
  obtain ⟨hA, hB, hZ⟩ := cmReachable_inv hr
  constructor
  · intro c1 c2 hr1 hr2 ha1 ha2 hp hg hsc
    have hidx1 := hB c1 hr1 ha1
    have hidx2 := hB c2 hr2 ha2
    rw [← hp, ← hg, ← hsc] at hidx2
    exact hidx1.symm.trans hidx2
  · intro env ids newId granteeMedicalId scope validTo purpose eo s' r hfresh hnz hok hE
    simp only [grantConsent] at hok
    split_ifs at hok with h1 h2 h3 h4 h5 h6 h7
    simp only [Except.ok.injEq, Prod.mk.injEq] at hok
    obtain ⟨hs', hr'⟩ := hok
    subst hs'
    obtain ⟨hp0, hpm, hgm, hscm, hst⟩ := hA _ _ _ hE
    have hne : s.activeConsents (ids.addressToMedicalId env.sender)
        granteeMedicalId scope ≠ newId := by
      intro hcontra
      rw [hcontra, hfresh] at hpm
      exact h3 hpm.symm
    simp only [grantConsentEffect, ne_eq, hE, not_false_eq_true, if_true,
      revokeConsentInternal]
    refine ⟨?_, ?_, ?_, ?_⟩
    · rw [upd_other _ _ _ _ hne, upd_same]
    · rw [upd_other _ _ _ _ hne, upd_same]
    · rw [upd_same]
    · rw [upd_same]

def cm2w : CMState :=
  okSt (grantConsent (envPat 120) idsEx cm5a 99 2 DataScope.ClinicalNotes 300
    "renewed follow-up" false) cm5a

/-- Witness for C2 at a concrete reachable state: state `cm5a` (one grant from
a fresh deployment) holds consent 77 for (patient 1, doctor 2, ClinicalNotes);
granting consent 99 for the same tuple revokes 77 — `revokedBy` the patient's
wallet 10 — and leaves 99 Active; uniqueness applied at this state yields
77 = 77. -/
theorem at_most_one_active_consent_witness :
    (cm2w.consents 77).status = ConsentStatus.Revoked ∧
    (cm2w.consents 77).revokedBy = 10 ∧
    (cm2w.consents 99).status = ConsentStatus.Active ∧
    (cm2w.consents 99).patientMedicalId = 1 ∧
    (77 : Nat) = 77 := by
  have hreach : CMReachable cm5a :=
    CMReachable.step CMReachable.init
      (CMStep.grant (envPat 100) idsEx CMState.init cm5a 77 2 77
        DataScope.ClinicalNotes 150 "clinic visit" false rfl (by decide) rfl)
  have h := at_most_one_active_consent cm5a hreach
  have h2 := h.2 (envPat 120) idsEx 99 2 DataScope.ClinicalNotes 300
    "renewed follow-up" false cm2w 99 (by decide) (by decide) rfl (by decide)
  exact ⟨h2.1, h2.2.1, h2.2.2.1, h2.2.2.2,
    h.1 77 77 (by decide) (by decide) (by decide) (by decide) rfl rfl rfl⟩

end AMP
